import Mathlib

/-!
# Verification of the ff-conversion-openmm parameter converters

Shallow embedding of the three dialect converters (FRCMOD, LAMMPS, Tinker)
and their per-line drivers.  Numeric values are embedded as exact rationals
(`ℚ`); the only irrational ingredient of the source, `math.pi`, is embedded
as `Real.pi`, so fields produced by degree→radian conversion live in `ℝ`.
Fallible Python code (IndexError on a missing token, ValueError on a failed
`float()` parse, UnboundLocalError on a missed branch) is embedded as
`Option`: any such failure yields `none`.  String formatting and `print`
side effects are embedded structurally: a converter returns a record of the
values that the source interpolates into its output string.
-/

/-! ## Python string primitives

Helpers mirroring the exact Python string operations used by the source:
`str.split()` (split on whitespace runs, dropping empty fields),
`str.split(c)` (split on a single character, keeping empty fields),
`str.strip()`, slicing, single-character `str.replace`, `str.startswith`,
`float(...)` and `int(...)` parsing, and `int(float)` truncation.
-/

/-- `str.split()` worker: split a character list on whitespace runs. -/
def wsSplitAux : List Char → List Char → List (List Char)
  | [], acc => if acc = [] then [] else [acc.reverse]
  | c :: cs, acc =>
    if c.isWhitespace then
      (if acc = [] then wsSplitAux cs [] else acc.reverse :: wsSplitAux cs [])
    else wsSplitAux cs (c :: acc)

/-- Python `s.split()`: whitespace-delimited tokens, empty fields dropped. -/
def pySplit (s : String) : List String :=
  (wsSplitAux s.data []).map String.mk

/-- `str.split(c)` worker: split a character list at a separator character,
keeping empty fields. -/
def charSplitAux (sep : Char) : List Char → List Char → List (List Char)
  | [], acc => [acc.reverse]
  | c :: cs, acc =>
    if c = sep then acc.reverse :: charSplitAux sep cs []
    else charSplitAux sep cs (c :: acc)

/-- Python `s.split(sep)` for a single-character separator. -/
def pySplitChar (sep : Char) (s : String) : List String :=
  (charSplitAux sep s.data []).map String.mk

/-- Python `s.strip()`: remove leading and trailing whitespace. -/
def pyStrip (s : String) : String :=
  String.mk (((s.data.dropWhile Char.isWhitespace).reverse.dropWhile
    Char.isWhitespace).reverse)

/-- Python `s[:n]` (code-point slicing). -/
def pyTake (n : ℕ) (s : String) : String := String.mk (s.data.take n)

/-- Python `s[n:]` (code-point slicing). -/
def pyDrop (n : ℕ) (s : String) : String := String.mk (s.data.drop n)

/-- Python `s.replace(a, b)` for single characters. -/
def pyReplaceChar (a b : Char) (s : String) : String :=
  String.mk (s.data.map fun c => if c = a then b else c)

/-- Python `s.startswith(pre)`. -/
def pyStartsWith (s pre : String) : Bool := pre.data.isPrefixOf s.data

/-- Decimal digits of a character list read as a natural number. -/
def digitsToNat (l : List Char) : ℕ :=
  l.foldl (fun n c => 10 * n + (c.toNat - '0'.toNat)) 0

/-- Parse an optional sign followed by a non-empty digit string, as Python
`int(str)` does. -/
def parseSignedDigits (l : List Char) : Option ℤ :=
  match l with
  | '+' :: d => if d ≠ [] ∧ d.all Char.isDigit then some (digitsToNat d) else none
  | '-' :: d => if d ≠ [] ∧ d.all Char.isDigit then some (-(digitsToNat d : ℤ)) else none
  | d => if d ≠ [] ∧ d.all Char.isDigit then some (digitsToNat d) else none

/-- Python `int(str)`: an optional sign followed by decimal digits. -/
def parseIntPy (s : String) : Option ℤ := parseSignedDigits s.data

/-- Exponent suffix of a Python float literal: empty, or `e`/`E` followed by
a signed digit string. -/
def parseExpSuffix (l : List Char) : Option ℤ :=
  match l with
  | [] => some 0
  | 'e' :: r => parseSignedDigits r
  | 'E' :: r => parseSignedDigits r
  | _ => none

/-- The rational `±(m / 10^fracLen) * 10^e`, built with a single `mkRat` so
that it evaluates by kernel reduction. -/
def ratOfDigits (neg : Bool) (m : ℕ) (fracLen : ℕ) (e : ℤ) : ℚ :=
  let n : ℤ := if neg then -(m : ℤ) else (m : ℤ)
  match e with
  | Int.ofNat k => mkRat (n * (Nat.pow 10 k : ℕ)) (Nat.pow 10 fracLen)
  | Int.negSucc k => mkRat n (Nat.pow 10 fracLen * Nat.pow 10 (k + 1))

/-- Mantissa-and-exponent worker for `parseFloatQ`: parses
`digits [. digits] [(e|E) signed-digits]` into an exact rational. -/
def parseMantissa (neg : Bool) (l : List Char) : Option ℚ :=
  let ip := l.takeWhile Char.isDigit
  let r1 := l.dropWhile Char.isDigit
  match r1 with
  | '.' :: r2 =>
    let fp := r2.takeWhile Char.isDigit
    let r3 := r2.dropWhile Char.isDigit
    if ip = [] ∧ fp = [] then none
    else
      match parseExpSuffix r3 with
      | some e =>
        some (ratOfDigits neg (digitsToNat ip * Nat.pow 10 fp.length + digitsToNat fp)
          fp.length e)
      | none => none
  | _ =>
    if ip = [] then none
    else
      match parseExpSuffix r1 with
      | some e => some (ratOfDigits neg (digitsToNat ip) 0 e)
      | none => none

/-- Python `float(str)` restricted to finite decimal/scientific literals,
read as an exact rational. -/
def parseFloatQ (s : String) : Option ℚ :=
  match s.data with
  | '+' :: r => parseMantissa false r
  | '-' :: r => parseMantissa true r
  | r => parseMantissa false r

/-- Python `int(float)`: truncation toward zero. -/
def pyIntTrunc (q : ℚ) : ℤ :=
  if q.num < 0 then -((q.num.natAbs / q.den : ℕ) : ℤ) else ((q.num.natAbs / q.den : ℕ) : ℤ)

/-- Python `math.radians`: degrees to radians via `x * pi / 180`. -/
noncomputable def radiansR (x : ℝ) : ℝ := x * Real.pi / 180

namespace Frcmod

/-! ## frcmod2omm.py -/

/-- `kcal2kj = 4.184` (frcmod2omm.py). -/
def kcal2kj : ℚ := 4.184

/-- `ang2nm = 0.1` (frcmod2omm.py). -/
def ang2nm : ℚ := 0.1

/-- Fields of the `<Bond .../>` record emitted by `frcmod2omm._bond`. -/
structure BondRec where
  type1 : String
  type2 : String
  length : ℚ
  k : ℚ
  deriving DecidableEq

/-- Identifier group of a FRCMOD bond line: `line[:5].replace('-',' ').split()`. -/
def bondAtoms (line : String) : List String :=
  pySplit (pyReplaceChar '-' ' ' (pyTake 5 line))

/-- Numeric group of a FRCMOD bond line: `line[5:].split()`. -/
def bondParams (line : String) : List String := pySplit (pyDrop 5 line)

/-- `frcmod2omm._bond`: k (kcal/mol/Å²) → `2*k*kcal2kj/(ang2nm*ang2nm)`,
r (Å) → `r*ang2nm`. -/
def _bond (line : String) : Option BondRec :=
  match (bondAtoms line)[0]?, (bondAtoms line)[1]?,
        (bondParams line)[0]? >>= parseFloatQ,
        (bondParams line)[1]? >>= parseFloatQ with
  | some t1, some t2, some k, some r =>
    some { type1 := t1, type2 := t2, length := r * ang2nm,
           k := 2 * k * kcal2kj / (ang2nm * ang2nm) }
  | _, _, _, _ => none

/-- Fields of the `<Angle .../>` record emitted by `frcmod2omm._angle`. -/
structure AngleRec where
  type1 : String
  type2 : String
  type3 : String
  angle : ℝ
  k : ℚ

/-- Identifier group of a FRCMOD angle line: `line[:8].replace('-',' ').split()`. -/
def angleAtoms (line : String) : List String :=
  pySplit (pyReplaceChar '-' ' ' (pyTake 8 line))

/-- Numeric group of a FRCMOD angle line: `line[8:].split()`. -/
def angleParams (line : String) : List String := pySplit (pyDrop 8 line)

/-- `frcmod2omm._angle`: k → `2*k*kcal2kj`, a (degrees) → `math.radians(a)`. -/
noncomputable def _angle (line : String) : Option AngleRec :=
  match (angleAtoms line)[0]?, (angleAtoms line)[1]?, (angleAtoms line)[2]?,
        (angleParams line)[0]? >>= parseFloatQ,
        (angleParams line)[1]? >>= parseFloatQ with
  | some t1, some t2, some t3, some k, some a =>
    some { type1 := t1, type2 := t2, type3 := t3,
           angle := radiansR (a : ℝ), k := 2 * k * kcal2kj }
  | _, _, _, _, _ => none

/-- Fields of the `<Proper .../>` record emitted by `frcmod2omm._dihedral`. -/
structure ProperRec where
  type1 : String
  type2 : String
  type3 : String
  type4 : String
  periodicity : ℤ
  phase : ℝ
  k : ℚ

/-- Identifier group of a FRCMOD torsion/improper line:
`line[:11].replace('-',' ').split()`. -/
def torsionAtoms (line : String) : List String :=
  pySplit (pyReplaceChar '-' ' ' (pyTake 11 line))

/-- Numeric group of a FRCMOD torsion/improper line: `line[11:].split()`. -/
def torsionParams (line : String) : List String := pySplit (pyDrop 11 line)

/-- `frcmod2omm._dihedral`: k = `(pk/idivf)*kcal2kj`, phase →
`math.radians(phase)`, pn → `int(pn)` (truncation toward zero). -/
noncomputable def _dihedral (line : String) : Option ProperRec :=
  match (torsionAtoms line)[0]?, (torsionAtoms line)[1]?,
        (torsionAtoms line)[2]?, (torsionAtoms line)[3]?,
        (torsionParams line)[0]? >>= parseFloatQ,
        (torsionParams line)[1]? >>= parseFloatQ,
        (torsionParams line)[2]? >>= parseFloatQ,
        (torsionParams line)[3]? >>= parseFloatQ with
  | some t1, some t2, some t3, some t4, some idivf, some pk, some phase, some pn =>
    some { type1 := t1, type2 := t2, type3 := t3, type4 := t4,
           periodicity := pyIntTrunc pn, phase := radiansR (phase : ℝ),
           k := pk / idivf * kcal2kj }
  | _, _, _, _, _, _, _, _ => none

/-- Fields of the `<Improper .../>` record emitted by `frcmod2omm._improper`. -/
structure ImproperRec where
  type1 : String
  type2 : String
  type3 : String
  type4 : String
  periodicity : ℤ
  phase : ℝ
  k : ℚ

/-- `frcmod2omm._improper`: the out-of-plane atom `atoms[2]` is moved to
the first output slot, the others keep source order; k → `k*kcal2kj`,
phase → `math.radians(phase)`, pn → `int(pn)`. -/
noncomputable def _improper (line : String) : Option ImproperRec :=
  match (torsionAtoms line)[0]?, (torsionAtoms line)[1]?,
        (torsionAtoms line)[2]?, (torsionAtoms line)[3]?,
        (torsionParams line)[0]? >>= parseFloatQ,
        (torsionParams line)[1]? >>= parseFloatQ,
        (torsionParams line)[2]? >>= parseFloatQ with
  | some a0, some a1, some a2, some a3, some k, some phase, some pn =>
    some { type1 := a2, type2 := a0, type3 := a1, type4 := a3,
           periodicity := pyIntTrunc pn, phase := radiansR (phase : ℝ),
           k := k * kcal2kj }
  | _, _, _, _, _, _, _ => none

/-- The four identifier fields of an improper record, in emitted order. -/
def improperTypes (r : ImproperRec) : String × String × String × String :=
  (r.type1, r.type2, r.type3, r.type4)

/-- The numeric fields of a proper-torsion record. -/
def properData (r : ProperRec) : ℚ × ℝ × ℤ := (r.k, r.phase, r.periodicity)

/-- The numeric fields of a bond record. -/
def bondData (r : BondRec) : ℚ × ℚ := (r.length, r.k)

/-- The k-field of a bond record. -/
def bondK (r : BondRec) : ℚ := r.k

/-- The numeric fields of an angle record. -/
def angleData (r : AngleRec) : ℚ × ℝ := (r.k, r.angle)

end Frcmod

namespace Lammps

/-! ## lammps2omm.py and main.lammps.py -/

/-- `kcal2kj = 4.184` (lammps2omm.py). -/
def kcal2kj : ℚ := 4.184

/-- `ang2nm = 0.1` (lammps2omm.py). -/
def ang2nm : ℚ := 0.1

/-- `CGREY = '\33[90m'`: grey terminal colour marker. -/
def CGREY : String := "\x1b[90m"

/-- `CYLW = '\33[33m'`: yellow terminal colour marker. -/
def CYLW : String := "\x1b[33m"

/-- `CEND = '\33[0m'`: colour reset marker. -/
def CEND : String := "\x1b[0m"

/-- Fields of the `<Bond .../>` record emitted by `lammps2omm._bond`. -/
structure BondRec where
  type1 : String
  type2 : String
  length : ℚ
  k : ℚ
  deriving DecidableEq

/-- `lammps2omm._bond`: tokens `llist[2]`, `llist[3]` are k and r, the atom
pair is the hyphen-joined comment token `llist[5]`. -/
def _bond (line : String) : Option BondRec :=
  match (pySplit line)[5]?, (pySplit line)[2]? >>= parseFloatQ,
        (pySplit line)[3]? >>= parseFloatQ with
  | some tok5, some k, some r =>
    match (pySplitChar '-' tok5)[0]?, (pySplitChar '-' tok5)[1]? with
    | some a0, some a1 =>
      some { type1 := a0, type2 := a1, length := r * ang2nm,
             k := k * 2 * kcal2kj / (ang2nm * ang2nm) }
    | _, _ => none
  | _, _, _ => none

/-- Fields of the `<Angle .../>` record emitted by `lammps2omm._angle`. -/
structure AngleRec where
  type1 : String
  type2 : String
  type3 : String
  angle : ℝ
  k : ℚ

/-- `lammps2omm._angle`: k → `2*k*kcal2kj`, a (degrees) → `math.radians(a)`;
atoms come from the hyphen-joined comment token `llist[5]`. -/
noncomputable def _angle (line : String) : Option AngleRec :=
  match (pySplit line)[5]?, (pySplit line)[2]? >>= parseFloatQ,
        (pySplit line)[3]? >>= parseFloatQ with
  | some tok5, some k, some a =>
    match (pySplitChar '-' tok5)[0]?, (pySplitChar '-' tok5)[1]?,
          (pySplitChar '-' tok5)[2]? with
    | some a0, some a1, some a2 =>
      some { type1 := a0, type2 := a1, type3 := a2,
             angle := radiansR (a : ℝ), k := 2 * k * kcal2kj }
    | _, _, _ => none
  | _, _, _ => none

/-- Fields of the `<Proper .../>` record emitted by `lammps2omm._dihedral`. -/
structure ProperRec where
  type1 : String
  type2 : String
  type3 : String
  type4 : String
  periodicity : ℤ
  phase : ℝ
  k : ℚ

/-- `lammps2omm._dihedral`: k → `k*kcal2kj`, periodicity `int(llist[3])`,
phase `math.radians(int(llist[4]))`; atoms from comment token `llist[7]`. -/
noncomputable def _dihedral (line : String) : Option ProperRec :=
  match (pySplit line)[7]?, (pySplit line)[2]? >>= parseFloatQ,
        (pySplit line)[3]? >>= parseIntPy, (pySplit line)[4]? >>= parseIntPy with
  | some tok7, some k, some n, some d =>
    match (pySplitChar '-' tok7)[0]?, (pySplitChar '-' tok7)[1]?,
          (pySplitChar '-' tok7)[2]?, (pySplitChar '-' tok7)[3]? with
    | some a0, some a1, some a2, some a3 =>
      some { type1 := a0, type2 := a1, type3 := a2, type4 := a3,
             periodicity := n, phase := radiansR (d : ℝ), k := k * kcal2kj }
    | _, _, _, _ => none
  | _, _, _, _ => none

/-- One printed line of `lammps2omm._nonbonding`: a converted `<Atom .../>`
record, a grey passthrough of the input line, or the yellow would-be
sigma/epsilon diagnostic for a mixed-type LJ pair. -/
inductive NBOut where
  | record (atom : String) (sigma eps : ℚ)
  | grey (s : String)
  | diag (tok : String) (sigma eps : ℚ)
  deriving DecidableEq

/-- The value returned (not printed) by `lammps2omm._nonbonding`: the
`<Atom .../>` record string, or the empty string. -/
inductive NBRet where
  | record (atom : String) (sigma eps : ℚ)
  | empty
  deriving DecidableEq

/-- `lammps2omm._nonbonding`: the printed lines and the returned value.
Same-type `lj*` pairs print and return a record named by comment token
`llist[7]`; mixed-type `lj*` pairs print the grey line plus a diagnostic
and return `""`; every other style prints the grey line and returns `""`;
additionally a same-type `buck*` pair prints a zero-valued placeholder
record named by comment token `llist[8]`. -/
def _nonbonding (line : String) : Option (List NBOut × NBRet) :=
  match (pySplit line)[1]?, (pySplit line)[2]?, (pySplit line)[3]?,
        (pySplit line)[4]? >>= parseFloatQ, (pySplit line)[5]? >>= parseFloatQ with
  | some a1, some a2, some st, some e, some s =>
    let sigma := ang2nm * s
    let eps := kcal2kj * e
    let first? : Option (List NBOut × NBRet) :=
      if a1 = a2 ∧ pyStartsWith st "lj" = true then
        match (pySplit line)[7]? with
        | some t7 =>
          match (pySplitChar '-' t7)[1]? with
          | some nm => some ([NBOut.record nm sigma eps], NBRet.record nm sigma eps)
          | none => none
        | none => none
      else if a1 ≠ a2 ∧ pyStartsWith st "lj" = true then
        match (pySplit line)[7]? with
        | some t7 => some ([NBOut.grey (pyStrip line), NBOut.diag t7 sigma eps], NBRet.empty)
        | none => none
      else some ([NBOut.grey (pyStrip line)], NBRet.empty)
    match first? with
    | none => none
    | some (pr, ret) =>
      if a1 = a2 ∧ pyStartsWith st "buck" = true then
        match (pySplit line)[8]? with
        | some t8 =>
          match (pySplitChar '-' t8)[1]? with
          | some nm => some (pr ++ [NBOut.record nm 0 0], ret)
          | none => none
        | none => none
      else some (pr, ret)
  | _, _, _, _, _ => none

/-- One line of output of the main.lammps.py per-line loop. -/
inductive LOut where
  | bond (r : BondRec)
  | angle (r : AngleRec)
  | proper (r : ProperRec)
  | nb (o : NBOut)
  | grey (s : String)

/-- The main.lammps.py loop body for one input line: dispatch on the first
token of the stripped line, else print the stripped line in grey.  `none`
models an uncaught exception escaping the loop body. -/
noncomputable def processLine (line : String) : Option (List LOut) :=
  let cl := pyStrip line
  if 1 ≤ cl.data.length ∧ (pySplit cl)[0]? = some "bond_coeff" then
    Option.map (fun r => [LOut.bond r]) (_bond cl)
  else if 1 ≤ cl.data.length ∧ (pySplit cl)[0]? = some "angle_coeff" then
    Option.map (fun r => [LOut.angle r]) (_angle cl)
  else if 1 ≤ cl.data.length ∧ (pySplit cl)[0]? = some "dihedral_coeff" then
    Option.map (fun r => [LOut.proper r]) (_dihedral cl)
  else if 1 ≤ cl.data.length ∧ (pySplit cl)[0]? = some "pair_coeff" then
    Option.map (fun p => p.1.map LOut.nb) (_nonbonding cl)
  else some [LOut.grey (CGREY ++ cl ++ CEND)]

/-- The numeric fields of a LAMMPS bond record. -/
def bondData (r : BondRec) : ℚ × ℚ := (r.length, r.k)

/-- The numeric fields of a LAMMPS angle record. -/
def angleData (r : AngleRec) : ℚ × ℝ := (r.k, r.angle)

/-- The numeric fields of a LAMMPS proper-torsion record. -/
def properData (r : ProperRec) : ℚ × ℝ × ℤ := (r.k, r.phase, r.periodicity)

end Lammps

namespace Tinker

/-! ## tinker2omm.py and main.tinker.py -/

/-- `radian = 57.2957795130` (tinker2omm.py): the rational constant the
source uses for rad→degree, distinct from `math.pi`. -/
def radian : ℚ := 57.2957795130

/-- `bohr = 0.52917720859` (tinker2omm._multipole). -/
def bohr : ℚ := 0.52917720859

/-- Fields of the `<Vdw .../>` record emitted by `tinker2omm._vdw`. -/
structure VdwRec where
  cls : String
  sigma : ℚ
  epsilon : ℚ
  reduction : String
  deriving DecidableEq

/-- `tinker2omm._vdw`: sigma Å→nm (`*0.1`), epsilon kcal→kJ (`*4.184`);
reduction is token 4 when present, else the default `1.0`. -/
def _vdw (llist : List String) : Option VdwRec :=
  match llist[1]?, llist[2]? >>= parseFloatQ, llist[3]? >>= parseFloatQ with
  | some cls, some s, some e =>
    some { cls := cls, sigma := s * 0.1, epsilon := e * 4.184,
           reduction := if llist.length = 5 then llist.getD 4 "" else "1.0" }
  | _, _, _ => none

/-- Fields of the `<Bond .../>` record emitted by `tinker2omm._bond`. -/
structure BondRec where
  class1 : String
  class2 : String
  length : ℚ
  k : ℚ
  deriving DecidableEq

/-- `tinker2omm._bond`: k → `k*4.184/0.01`, length → `*0.1`. -/
def _bond (llist : List String) : Option BondRec :=
  match llist[1]?, llist[2]?, llist[3]? >>= parseFloatQ, llist[4]? >>= parseFloatQ with
  | some c1, some c2, some k, some len =>
    some { class1 := c1, class2 := c2, length := len * 0.1, k := k * 4.184 / 0.01 }
  | _, _, _, _ => none

/-- Fields of the `<Angle .../>` record emitted by `tinker2omm._angle`.
The angle values are the raw tokens, not parsed or converted. -/
structure AngleRec where
  class1 : String
  class2 : String
  class3 : String
  k : ℝ
  angles : List String

/-- `tinker2omm._angle`: dispatch on total token count 6/8/9 (one, two or
three angle tokens); k → `k*4.184/(180/pi)**2`; the angle tokens are kept
verbatim (degrees).  Any other arity leaves the result unbound: `none`. -/
noncomputable def _angle (llist : List String) : Option AngleRec :=
  if llist.length = 6 then
    match llist[1]?, llist[2]?, llist[3]?, llist[4]? >>= parseFloatQ, llist[5]? with
    | some c1, some c2, some c3, some k, some a1 =>
      some { class1 := c1, class2 := c2, class3 := c3,
             k := (k : ℝ) * 4.184 / (180 / Real.pi) ^ 2, angles := [a1] }
    | _, _, _, _, _ => none
  else if llist.length = 8 then
    match llist[1]?, llist[2]?, llist[3]?, llist[4]? >>= parseFloatQ,
          llist[5]?, llist[6]? with
    | some c1, some c2, some c3, some k, some a1, some a2 =>
      some { class1 := c1, class2 := c2, class3 := c3,
             k := (k : ℝ) * 4.184 / (180 / Real.pi) ^ 2, angles := [a1, a2] }
    | _, _, _, _, _, _ => none
  else if llist.length = 9 then
    match llist[1]?, llist[2]?, llist[3]?, llist[4]? >>= parseFloatQ,
          llist[5]?, llist[6]?, llist[7]? with
    | some c1, some c2, some c3, some k, some a1, some a2, some a3 =>
      some { class1 := c1, class2 := c2, class3 := c3,
             k := (k : ℝ) * 4.184 / (180 / Real.pi) ^ 2, angles := [a1, a2, a3] }
    | _, _, _, _, _, _, _ => none
  else none

/-- Fields of the `<StretchBend .../>` record emitted by `tinker2omm._strbend`. -/
structure StrbndRec where
  class1 : String
  class2 : String
  class3 : String
  k1 : ℝ
  k2 : ℝ

/-- `tinker2omm._strbend`: each constant → `* (4.184*10/(180/pi))`. -/
noncomputable def _strbend (llist : List String) : Option StrbndRec :=
  match llist[1]?, llist[2]?, llist[3]?, llist[4]? >>= parseFloatQ,
        llist[5]? >>= parseFloatQ with
  | some c1, some c2, some c3, some q1, some q2 =>
    some { class1 := c1, class2 := c2, class3 := c3,
           k1 := (q1 : ℝ) * (4.184 * 10 / (180 / Real.pi)),
           k2 := (q2 : ℝ) * (4.184 * 10 / (180 / Real.pi)) }
  | _, _, _, _, _ => none

/-- Fields of the `<Proper .../>` record emitted by `tinker2omm._torsion`.
The periodicity fields are the raw tokens, not parsed or converted. -/
structure TorsionRec where
  class1 : String
  class2 : String
  class3 : String
  class4 : String
  k1 : ℚ
  phase1 : ℝ
  per1 : String
  k2 : ℚ
  phase2 : ℝ
  per2 : String
  k3 : ℚ
  phase3 : ℝ
  per3 : String

/-- `tinker2omm._torsion`: each term constant → `* (4.184/2)`, each phase →
`* (pi/180)`, each periodicity token passed through verbatim. -/
noncomputable def _torsion (llist : List String) : Option TorsionRec :=
  match llist[1]?, llist[2]?, llist[3]?, llist[4]?,
        llist[5]? >>= parseFloatQ, llist[6]? >>= parseFloatQ, llist[7]?,
        llist[8]? >>= parseFloatQ, llist[9]? >>= parseFloatQ, llist[10]?,
        llist[11]? >>= parseFloatQ, llist[12]? >>= parseFloatQ, llist[13]? with
  | some c1, some c2, some c3, some c4, some q1, some p1, some n1,
    some q2, some p2, some n2, some q3, some p3, some n3 =>
    some { class1 := c1, class2 := c2, class3 := c3, class4 := c4,
           k1 := q1 * (4.184 / 2), phase1 := (p1 : ℝ) * (Real.pi / 180), per1 := n1,
           k2 := q2 * (4.184 / 2), phase2 := (p2 : ℝ) * (Real.pi / 180), per2 := n2,
           k3 := q3 * (4.184 / 2), phase3 := (p3 : ℝ) * (Real.pi / 180), per3 := n3 }
  | _, _, _, _, _, _, _, _, _, _, _, _, _ => none

/-- Fields of the `<Polarize .../>` record emitted by `tinker2omm._polarize`. -/
structure PolarizeRec where
  typ : String
  polarizability : ℚ
  thole : String
  groups : List String
  deriving DecidableEq

/-- `tinker2omm._polarize`: polarizability → `*0.001`; thole token verbatim;
0–3 trailing group tokens; 4 or more leaves the result unbound: `none`. -/
def _polarize (llist : List String) : Option PolarizeRec :=
  match llist[1]?, llist[2]? >>= parseFloatQ, llist[3]? with
  | some t, some pol, some th =>
    match llist.drop 4 with
    | [] => some { typ := t, polarizability := pol * 0.001, thole := th, groups := [] }
    | [g1] => some { typ := t, polarizability := pol * 0.001, thole := th, groups := [g1] }
    | [g1, g2] => some { typ := t, polarizability := pol * 0.001, thole := th, groups := [g1, g2] }
    | [g1, g2, g3] => some { typ := t, polarizability := pol * 0.001, thole := th,
                             groups := [g1, g2, g3] }
    | _ => none
  | _, _, _ => none

/-- Fields of the `<Multipole .../>` record emitted by `tinker2omm._multipole`. -/
structure MultipoleRec where
  typ : String
  kz : String
  kx : String
  ky : Option String
  c0 : ℚ
  d1 : ℚ
  d2 : ℚ
  d3 : ℚ
  q11 : ℚ
  q21 : ℚ
  q22 : ℚ
  q31 : ℚ
  q32 : ℚ
  q33 : ℚ
  deriving DecidableEq

/-- `tinker2omm._multipole` on an aggregated token list: the 14-token shape
has no `ky`, the 15-token shape has `ky`; dipoles → `* bohr*0.1`,
quadrupoles → `* 0.01*bohr*bohr/3`.  Any other token count leaves the
result unbound: `none`. -/
def _multipole (llist : List String) : Option MultipoleRec :=
  if llist.length = 14 then
    match llist[1]?, llist[2]?, llist[3]?, llist[4]? >>= parseFloatQ,
          llist[5]? >>= parseFloatQ, llist[6]? >>= parseFloatQ, llist[7]? >>= parseFloatQ,
          llist[8]? >>= parseFloatQ, llist[9]? >>= parseFloatQ, llist[10]? >>= parseFloatQ,
          llist[11]? >>= parseFloatQ, llist[12]? >>= parseFloatQ, llist[13]? >>= parseFloatQ with
    | some a, some kz, some kx, some c0, some w1, some w2, some w3,
      some x11, some x21, some x22, some x31, some x32, some x33 =>
      some { typ := a, kz := kz, kx := kx, ky := none, c0 := c0,
             d1 := w1 * (bohr * 0.1), d2 := w2 * (bohr * 0.1), d3 := w3 * (bohr * 0.1),
             q11 := x11 * (0.01 * bohr * bohr / 3), q21 := x21 * (0.01 * bohr * bohr / 3),
             q22 := x22 * (0.01 * bohr * bohr / 3), q31 := x31 * (0.01 * bohr * bohr / 3),
             q32 := x32 * (0.01 * bohr * bohr / 3), q33 := x33 * (0.01 * bohr * bohr / 3) }
    | _, _, _, _, _, _, _, _, _, _, _, _, _ => none
  else if llist.length = 15 then
    match llist[1]?, llist[2]?, llist[3]?, llist[4]?, llist[5]? >>= parseFloatQ,
          llist[6]? >>= parseFloatQ, llist[7]? >>= parseFloatQ, llist[8]? >>= parseFloatQ,
          llist[9]? >>= parseFloatQ, llist[10]? >>= parseFloatQ, llist[11]? >>= parseFloatQ,
          llist[12]? >>= parseFloatQ, llist[13]? >>= parseFloatQ, llist[14]? >>= parseFloatQ with
    | some a, some kz, some kx, some ky, some c0, some w1, some w2, some w3,
      some x11, some x21, some x22, some x31, some x32, some x33 =>
      some { typ := a, kz := kz, kx := kx, ky := some ky, c0 := c0,
             d1 := w1 * (bohr * 0.1), d2 := w2 * (bohr * 0.1), d3 := w3 * (bohr * 0.1),
             q11 := x11 * (0.01 * bohr * bohr / 3), q21 := x21 * (0.01 * bohr * bohr / 3),
             q22 := x22 * (0.01 * bohr * bohr / 3), q31 := x31 * (0.01 * bohr * bohr / 3),
             q32 := x32 * (0.01 * bohr * bohr / 3), q33 := x33 * (0.01 * bohr * bohr / 3) }
    | _, _, _, _, _, _, _, _, _, _, _, _, _, _ => none
  else none

/-- Fields of the `<Angle ... k=.../>` record emitted by `tinker2omm._opbend`. -/
structure OpbendRec where
  class1 : String
  class2 : String
  class3 : String
  class4 : String
  k : ℚ
  deriving DecidableEq

/-- `tinker2omm._opbend`: k → `* (4.184/(radian*radian))` with the source's
rational `radian` constant. -/
def _opbend (llist : List String) : Option OpbendRec :=
  match llist[1]?, llist[2]?, llist[3]?, llist[4]?, llist[5]? >>= parseFloatQ with
  | some c1, some c2, some c3, some c4, some q =>
    some { class1 := c1, class2 := c2, class3 := c3, class4 := c4,
           k := q * (4.184 / (radian * radian)) }
  | _, _, _, _, _ => none

/-- Fields of the `<PiTorsion .../>` record emitted by `tinker2omm._pitors`. -/
structure PitorsRec where
  class1 : String
  class2 : String
  k : ℚ
  deriving DecidableEq

/-- `tinker2omm._pitors`: k → `* (4.184*1.0)` (`piTorsionUnit = 1.0`). -/
def _pitors (llist : List String) : Option PitorsRec :=
  match llist[1]?, llist[2]?, llist[3]? >>= parseFloatQ with
  | some c1, some c2, some q => some { class1 := c1, class2 := c2, k := q * (4.184 * 1.0) }
  | _, _, _ => none

/-- One line of output of the main.tinker.py per-line loop: a converted
record of some kind, or the grey skipping-line diagnostic. -/
inductive TOut where
  | vdw (r : VdwRec)
  | bond (r : BondRec)
  | angle (r : AngleRec)
  | strbnd (r : StrbndRec)
  | torsion (r : TorsionRec)
  | polarize (r : PolarizeRec)
  | multipole (r : MultipoleRec)
  | opbend (r : OpbendRec)
  | pitors (r : PitorsRec)
  | skip (s : String)

/-- `none`-propagating cons: prepend a converted record to the remaining
output, failing if either side failed. -/
def consOut (o : Option TOut) (rest : Option (List TOut)) : Option (List TOut) :=
  match o, rest with
  | some x, some l => some (x :: l)
  | _, _ => none

end Tinker

namespace Tinker

/-- `CGREY = '\33[90m'` (main.tinker.py). -/
def CGREY : String := "\x1b[90m"

/-- `CEND = '\33[0m'` (main.tinker.py). -/
def CEND : String := "\x1b[0m"

/-- The main.tinker.py file loop as a state machine over the remaining
lines.  State `none`: dispatch normally on the next line.  State
`some (k, acc)`: a `multipole` header was seen and `k` of its four
continuation lines (read by `file.readline()`) are still to be consumed
into the accumulated token list `acc`.  At end of file a pending
`readline()` returns `''`, contributing no tokens.  `none` as a result
models an uncaught exception aborting the whole run. -/
noncomputable def driveAux : List String → Option (ℕ × List String) → Option (List TOut)
  | [], st =>
    match st with
    | none => some []
    | some (_, acc) => consOut (Option.map TOut.multipole (_multipole acc)) (some [])
  | line :: rest, st =>
    match st with
    | some (1, acc) =>
      consOut (Option.map TOut.multipole (_multipole (acc ++ pySplit (pyStrip line))))
        (driveAux rest none)
    | some (0, _) => none
    | some (k + 2, acc) => driveAux rest (some (k + 1, acc ++ pySplit (pyStrip line)))
    | none =>
      let toks := pySplit (pyStrip line)
      let t0 := toks.headD ""
      if toks.length < 3 ∨ pyStartsWith t0 "#" = true then driveAux rest none
      else if pyStartsWith t0 "bond" = true then
        consOut (Option.map TOut.bond (_bond toks)) (driveAux rest none)
      else if pyStartsWith t0 "angle" = true then
        consOut (Option.map TOut.angle (_angle toks)) (driveAux rest none)
      else if pyStartsWith t0 "strbnd" = true then
        consOut (Option.map TOut.strbnd (_strbend toks)) (driveAux rest none)
      else if pyStartsWith t0 "torsion" = true then
        consOut (Option.map TOut.torsion (_torsion toks)) (driveAux rest none)
      else if pyStartsWith t0 "vdw" = true then
        consOut (Option.map TOut.vdw (_vdw toks)) (driveAux rest none)
      else if pyStartsWith t0 "opbend" = true then
        consOut (Option.map TOut.opbend (_opbend toks)) (driveAux rest none)
      else if pyStartsWith t0 "pitors" = true then
        consOut (Option.map TOut.pitors (_pitors toks)) (driveAux rest none)
      else if pyStartsWith t0 "multipole" = true then
        driveAux rest (some (4, toks))
      else if pyStartsWith t0 "polarize" = true then
        consOut (Option.map TOut.polarize (_polarize toks)) (driveAux rest none)
      -- the source repeats the opbend branch here; it is unreachable
      else if pyStartsWith t0 "opbend" = true then
        consOut (Option.map TOut.opbend (_opbend toks)) (driveAux rest none)
      else
        consOut (some (TOut.skip (CGREY ++ "skipping line:  " ++ pyStrip line ++ CEND)))
          (driveAux rest none)

/-- The main.tinker.py per-file loop on the list of input lines. -/
noncomputable def tinkerDrive (lines : List String) : Option (List TOut) :=
  driveAux lines none

/-- Follows the spec's words, not the source: a variant of the Tinker loop
whose multipole aggregator "consumes exactly the next three lines
unconditionally and concatenates all four token lists" (header plus three
continuations) before conversion. -/
noncomputable def driveAuxSpec3 : List String → Option (ℕ × List String) → Option (List TOut)
  | [], st =>
    match st with
    | none => some []
    | some (_, acc) => consOut (Option.map TOut.multipole (_multipole acc)) (some [])
  | line :: rest, st =>
    match st with
    | some (1, acc) =>
      consOut (Option.map TOut.multipole (_multipole (acc ++ pySplit (pyStrip line))))
        (driveAuxSpec3 rest none)
    | some (0, _) => none
    | some (k + 2, acc) => driveAuxSpec3 rest (some (k + 1, acc ++ pySplit (pyStrip line)))
    | none =>
      let toks := pySplit (pyStrip line)
      let t0 := toks.headD ""
      if toks.length < 3 ∨ pyStartsWith t0 "#" = true then driveAuxSpec3 rest none
      else if pyStartsWith t0 "bond" = true then
        consOut (Option.map TOut.bond (_bond toks)) (driveAuxSpec3 rest none)
      else if pyStartsWith t0 "angle" = true then
        consOut (Option.map TOut.angle (_angle toks)) (driveAuxSpec3 rest none)
      else if pyStartsWith t0 "strbnd" = true then
        consOut (Option.map TOut.strbnd (_strbend toks)) (driveAuxSpec3 rest none)
      else if pyStartsWith t0 "torsion" = true then
        consOut (Option.map TOut.torsion (_torsion toks)) (driveAuxSpec3 rest none)
      else if pyStartsWith t0 "vdw" = true then
        consOut (Option.map TOut.vdw (_vdw toks)) (driveAuxSpec3 rest none)
      else if pyStartsWith t0 "opbend" = true then
        consOut (Option.map TOut.opbend (_opbend toks)) (driveAuxSpec3 rest none)
      else if pyStartsWith t0 "pitors" = true then
        consOut (Option.map TOut.pitors (_pitors toks)) (driveAuxSpec3 rest none)
      else if pyStartsWith t0 "multipole" = true then
        driveAuxSpec3 rest (some (3, toks))
      else if pyStartsWith t0 "polarize" = true then
        consOut (Option.map TOut.polarize (_polarize toks)) (driveAuxSpec3 rest none)
      else
        consOut (some (TOut.skip (CGREY ++ "skipping line:  " ++ pyStrip line ++ CEND)))
          (driveAuxSpec3 rest none)

/-- The spec's-words variant of `tinkerDrive` (three continuation lines). -/
noncomputable def tinkerDriveSpec3 (lines : List String) : Option (List TOut) :=
  driveAuxSpec3 lines none

end Tinker

/-! ## CLI argument checks (main.frcmod.py / main.lammps.py / main.tinker.py)

Each entry point inspects `sys.argv`; with exactly two elements (script
name plus one positional argument) it proceeds with that file name,
otherwise it prints its usage message and calls `sys.exit()`.  A Python
`sys.exit()` with no argument raises `SystemExit(None)`, which terminates
the process with exit status `0`. -/

/-- A usage-message exit: the printed lines and the process exit status. -/
structure CliExit where
  msgs : List String
  code : ℕ
  deriving DecidableEq

/-- Result of a CLI argument check: proceed with the input file, or exit. -/
inductive CliStart where
  | run (file : String)
  | exit (e : CliExit)
  deriving DecidableEq

/-- The exit status of a CLI argument check, if it exits. -/
def exitCode : CliStart → Option ℕ
  | CliStart.run _ => none
  | CliStart.exit e => some e.code

/-- main.tinker.py argument check. -/
def tinkerCliCheck (argv : List String) : CliStart :=
  if argv.length = 2 then CliStart.run (argv.getD 1 "")
  else CliStart.exit ⟨["No AMOEBA Force Field file specified!",
                       "USAGE: script.py tinker-parameter-file.prm"], 0⟩

/-- main.lammps.py argument check. -/
def lammpsCliCheck (argv : List String) : CliStart :=
  if argv.length = 2 then CliStart.run (argv.getD 1 "")
  else CliStart.exit ⟨["No LAMMPS param file specified!",
                       "USAGE: script.py lig.param"], 0⟩

/-- main.frcmod.py argument check. -/
def frcmodCliCheck (argv : List String) : CliStart :=
  if argv.length = 2 then CliStart.run (argv.getD 1 "")
  else CliStart.exit ⟨["No FRCMOD file specified!",
                       "USAGE: script.py lig.frcmod"], 0⟩

/-! ## Helper lemmas -/

/-- A token starting with `lj` cannot start with `buck`. -/
theorem startsWith_lj_not_buck (s : String) (h : pyStartsWith s "lj" = true) :
    pyStartsWith s "buck" = false := by
  unfold pyStartsWith at h ⊢
  cases hs : s.data with
  | nil =>
    rw [hs] at h
    exact absurd h (by decide)
  | cons c cs =>
    rw [hs] at h
    have hc : ('l' == c) = true := by
      by_contra hne
      have hb : ('l' == c) = false := by
        cases hb2 : ('l' == c)
        · rfl
        · exact absurd hb2 hne
      rw [show ("lj".data) = ['l', 'j'] from rfl] at h
      simp only [List.isPrefixOf, hb, Bool.false_and] at h
      exact absurd h (by decide)
    have hcl : c = 'l' := (eq_of_beq hc).symm
    subst hcl
    rw [show ("buck".data) = ['b', 'u', 'c', 'k'] from rfl]
    simp only [List.isPrefixOf]
    rw [show ('b' == 'l') = false from rfl]
    exact Bool.false_and _

/-- A token starting with `buck` cannot start with `lj`. -/
theorem startsWith_buck_not_lj (s : String) (h : pyStartsWith s "buck" = true) :
    pyStartsWith s "lj" = false := by
  unfold pyStartsWith at h ⊢
  cases hs : s.data with
  | nil =>
    rw [hs] at h
    exact absurd h (by decide)
  | cons c cs =>
    rw [hs] at h
    have hc : ('b' == c) = true := by
      by_contra hne
      have hb : ('b' == c) = false := by
        cases hb2 : ('b' == c)
        · rfl
        · exact absurd hb2 hne
      rw [show ("buck".data) = ['b', 'u', 'c', 'k'] from rfl] at h
      simp only [List.isPrefixOf, hb, Bool.false_and] at h
      exact absurd h (by decide)
    have hcl : c = 'b' := (eq_of_beq hc).symm
    subst hcl
    rw [show ("lj".data) = ['l', 'j'] from rfl]
    simp only [List.isPrefixOf]
    rw [show ('l' == 'b') = false from rfl]
    exact Bool.false_and _

/-- An aggregated multipole token list whose length is neither 14 nor 15 is
rejected by `tinker2omm._multipole`. -/
theorem multipole_arity_none (ll : List String) (h14 : ll.length ≠ 14)
    (h15 : ll.length ≠ 15) : Tinker._multipole ll = none := by
  unfold Tinker._multipole
  rw [if_neg h14, if_neg h15]

/-- Single consume step of the multipole aggregator: with more than one
continuation line pending, the next line's tokens are appended. -/
theorem driveAux_consume (c : String) (rest : List String) (k : ℕ) (acc : List String) :
    Tinker.driveAux (c :: rest) (some (k + 2, acc)) =
      Tinker.driveAux rest (some (k + 1, acc ++ pySplit (pyStrip c))) := rfl

/-- Final consume step of the multipole aggregator: the fourth continuation
line completes the aggregate, which is converted and emitted. -/
theorem driveAux_finish (c : String) (rest : List String) (acc : List String) :
    Tinker.driveAux (c :: rest) (some (1, acc)) =
      Tinker.consOut (Option.map Tinker.TOut.multipole
        (Tinker._multipole (acc ++ pySplit (pyStrip c)))) (Tinker.driveAux rest none) := rfl

/-- Dispatch step of the Tinker loop at a `multipole` header line: the loop
enters the aggregation state carrying the header's tokens. -/
theorem driveAux_dispatch_multipole (h : String) (t : List String)
    (hlen : ¬ (pySplit (pyStrip h)).length < 3)
    (hhash : pyStartsWith ((pySplit (pyStrip h)).headD "") "#" = false)
    (hbond : pyStartsWith ((pySplit (pyStrip h)).headD "") "bond" = false)
    (hangle : pyStartsWith ((pySplit (pyStrip h)).headD "") "angle" = false)
    (hstrbnd : pyStartsWith ((pySplit (pyStrip h)).headD "") "strbnd" = false)
    (htors : pyStartsWith ((pySplit (pyStrip h)).headD "") "torsion" = false)
    (hvdw : pyStartsWith ((pySplit (pyStrip h)).headD "") "vdw" = false)
    (hopb : pyStartsWith ((pySplit (pyStrip h)).headD "") "opbend" = false)
    (hpit : pyStartsWith ((pySplit (pyStrip h)).headD "") "pitors" = false)
    (hmul : pyStartsWith ((pySplit (pyStrip h)).headD "") "multipole" = true) :
    Tinker.driveAux (h :: t) none = Tinker.driveAux t (some (4, pySplit (pyStrip h))) := by
  conv_lhs => rw [Tinker.driveAux.eq_def]
  dsimp only
  rw [if_neg (by
    intro hor
    rcases hor with hlt | hh
    · exact hlen hlt
    · rw [hhash] at hh; exact Bool.false_ne_true hh)]
  rw [if_neg (by rw [hbond]; exact Bool.false_ne_true)]
  rw [if_neg (by rw [hangle]; exact Bool.false_ne_true)]
  rw [if_neg (by rw [hstrbnd]; exact Bool.false_ne_true)]
  rw [if_neg (by rw [htors]; exact Bool.false_ne_true)]
  rw [if_neg (by rw [hvdw]; exact Bool.false_ne_true)]
  rw [if_neg (by rw [hopb]; exact Bool.false_ne_true)]
  rw [if_neg (by rw [hpit]; exact Bool.false_ne_true)]
  rw [if_pos hmul]

/-- Unfolding of the Tinker loop at a `multipole` header: the next four
lines are consumed and the five token lists concatenated before conversion;
the loop then continues after them. -/
theorem tinkerDrive_multipole (h c1 c2 c3 c4 : String) (rest : List String)
    (hlen : ¬ (pySplit (pyStrip h)).length < 3)
    (hhash : pyStartsWith ((pySplit (pyStrip h)).headD "") "#" = false)
    (hbond : pyStartsWith ((pySplit (pyStrip h)).headD "") "bond" = false)
    (hangle : pyStartsWith ((pySplit (pyStrip h)).headD "") "angle" = false)
    (hstrbnd : pyStartsWith ((pySplit (pyStrip h)).headD "") "strbnd" = false)
    (htors : pyStartsWith ((pySplit (pyStrip h)).headD "") "torsion" = false)
    (hvdw : pyStartsWith ((pySplit (pyStrip h)).headD "") "vdw" = false)
    (hopb : pyStartsWith ((pySplit (pyStrip h)).headD "") "opbend" = false)
    (hpit : pyStartsWith ((pySplit (pyStrip h)).headD "") "pitors" = false)
    (hmul : pyStartsWith ((pySplit (pyStrip h)).headD "") "multipole" = true) :
    Tinker.tinkerDrive (h :: c1 :: c2 :: c3 :: c4 :: rest) =
      Tinker.consOut (Option.map Tinker.TOut.multipole (Tinker._multipole
        (pySplit (pyStrip h) ++ pySplit (pyStrip c1) ++ pySplit (pyStrip c2)
          ++ pySplit (pyStrip c3) ++ pySplit (pyStrip c4))))
        (Tinker.tinkerDrive rest) := by
  unfold Tinker.tinkerDrive
  rw [driveAux_dispatch_multipole h _ hlen hhash hbond hangle hstrbnd htors hvdw hopb hpit hmul]
  rw [driveAux_consume, driveAux_consume, driveAux_consume, driveAux_finish]

/-- The periodicity field of a FRCMOD proper-torsion record. -/
def Frcmod.properPer (r : Frcmod.ProperRec) : ℤ := r.periodicity

/-- The third periodicity token of a Tinker torsion record. -/
def Tinker.torsionPer3 (r : Tinker.TorsionRec) : String := r.per3

/-! ## Claims -/

/-- C3, counterexample: on the FRCMOD bond line `c3-h1  330.60   1.097` the
emitted force constant is 2·330.60·4.184/0.01 = 276646.08, not the claimed
276,547.68. -/
theorem C3_cex :
    Option.map Frcmod.bondK (Frcmod._bond "c3-h1  330.60   1.097") ≠ some 276547.68 := by
  rw [show Frcmod._bond "c3-h1  330.60   1.097" =
      some ⟨"c3", "h1", mkRat 1097 1000 * Frcmod.ang2nm,
        2 * mkRat 33060 100 * Frcmod.kcal2kj / (Frcmod.ang2nm * Frcmod.ang2nm)⟩ from rfl]
  simp only [Option.map_some, Frcmod.bondK, ne_eq, Option.some.injEq]
  norm_num [Rat.mkRat_eq_div, Frcmod.kcal2kj, Frcmod.ang2nm, Frcmod.bondK]

/-- C3 (amended): for every FRCMOD bond line the emitted force constant is
`2*k*4.184/0.01` and the emitted length `r*0.1`; in particular for k =
330.60 and r = 1.097 the output is k = 276646.08 and length = 0.1097. -/
theorem C3_thm :
    (∀ (s t1 t2 : String) (k r : ℚ),
      (Frcmod.bondAtoms s)[0]? = some t1 →
      (Frcmod.bondAtoms s)[1]? = some t2 →
      (Frcmod.bondParams s)[0]? >>= parseFloatQ = some k →
      (Frcmod.bondParams s)[1]? >>= parseFloatQ = some r →
      Frcmod._bond s = some ⟨t1, t2, r * 0.1, 2 * k * 4.184 / 0.01⟩) ∧
    Option.map Frcmod.bondData (Frcmod._bond "c3-h1  330.60   1.097") =
      some (0.1097, 276646.08) := by
  constructor
  · intro s t1 t2 k r h1 h2 h3 h4
    unfold Frcmod._bond
    rw [h1, h2, h3, h4]
    show some (⟨t1, t2, r * Frcmod.ang2nm,
      2 * k * Frcmod.kcal2kj / (Frcmod.ang2nm * Frcmod.ang2nm)⟩ : Frcmod.BondRec) = _
    rw [show Frcmod.ang2nm = 0.1 from rfl, show Frcmod.kcal2kj = 4.184 from rfl]
    norm_num
  · show some ((mkRat 1097 1000 * Frcmod.ang2nm,
      2 * mkRat 33060 100 * Frcmod.kcal2kj / (Frcmod.ang2nm * Frcmod.ang2nm)) : ℚ × ℚ) =
      some (0.1097, 276646.08)
    rw [show Frcmod.ang2nm = 0.1 from rfl, show Frcmod.kcal2kj = 4.184 from rfl]
    norm_num [Rat.mkRat_eq_div]

/-- C3, witness: the general clause of the amended claim applied to the
doc-comment example line. -/
theorem C3_witness :
    Frcmod._bond "c3-h1  330.60   1.097" =
      some ⟨"c3", "h1", mkRat 1097 1000 * 0.1, 2 * mkRat 33060 100 * 4.184 / 0.01⟩ :=
  C3_thm.1 "c3-h1  330.60   1.097" "c3" "h1" (mkRat 33060 100) (mkRat 1097 1000)
    rfl rfl rfl rfl

/-- C4: a FRCMOD improper line whose identifier group is `[a, b, c, d]` is
emitted with the third source identifier (the out-of-plane atom) first and
the remaining three in source order: `(c, a, b, d)`. -/
theorem C4_thm (s a b c d : String) (k ph pn : ℚ)
    (hat : Frcmod.torsionAtoms s = [a, b, c, d])
    (h0 : (Frcmod.torsionParams s)[0]? >>= parseFloatQ = some k)
    (h1 : (Frcmod.torsionParams s)[1]? >>= parseFloatQ = some ph)
    (h2 : (Frcmod.torsionParams s)[2]? >>= parseFloatQ = some pn) :
    Option.map Frcmod.improperTypes (Frcmod._improper s) = some (c, a, b, d) := by
  unfold Frcmod._improper
  rw [hat, h0, h1, h2]
  rfl

/-- C4, witness: source identifiers `[c, c3, n, c3]` are emitted in order
`[n, c, c3, c3]`. -/
theorem C4_witness :
    Frcmod.torsionAtoms "c -c3-n -c3   1.1   180.0   2.0" = ["c", "c3", "n", "c3"] ∧
    Option.map Frcmod.improperTypes (Frcmod._improper "c -c3-n -c3   1.1   180.0   2.0") =
      some ("n", "c", "c3", "c3") :=
  ⟨rfl, C4_thm "c -c3-n -c3   1.1   180.0   2.0" "c" "c3" "n" "c3"
    (mkRat 11 10) (mkRat 1800 10) (mkRat 20 10) rfl rfl rfl rfl⟩

/-- C5: the angle asymmetry across the three dialects.  FRCMOD and LAMMPS
emit k = `2*k*4.184` and the angle in radians (`a*pi/180`); Tinker emits
k = `k*4.184/(180/pi)^2` and keeps the angle tokens verbatim, in degrees,
in each of its three record arities (6, 8 and 9 tokens: one, two or three
angle values). -/
theorem C5_thm :
    (∀ (s t1 t2 t3 : String) (k a : ℚ),
      (Frcmod.angleAtoms s)[0]? = some t1 →
      (Frcmod.angleAtoms s)[1]? = some t2 →
      (Frcmod.angleAtoms s)[2]? = some t3 →
      (Frcmod.angleParams s)[0]? >>= parseFloatQ = some k →
      (Frcmod.angleParams s)[1]? >>= parseFloatQ = some a →
      Frcmod._angle s = some ⟨t1, t2, t3, (a : ℝ) * Real.pi / 180, 2 * k * 4.184⟩) ∧
    (∀ (line tok5 a0 a1 a2 : String) (k a : ℚ),
      (pySplit line)[5]? = some tok5 →
      (pySplit line)[2]? >>= parseFloatQ = some k →
      (pySplit line)[3]? >>= parseFloatQ = some a →
      (pySplitChar '-' tok5)[0]? = some a0 →
      (pySplitChar '-' tok5)[1]? = some a1 →
      (pySplitChar '-' tok5)[2]? = some a2 →
      Lammps._angle line = some ⟨a0, a1, a2, (a : ℝ) * Real.pi / 180, 2 * k * 4.184⟩) ∧
    (∀ (ll : List String) (c1 c2 c3 astr : String) (k : ℚ),
      ll.length = 6 →
      ll[1]? = some c1 → ll[2]? = some c2 → ll[3]? = some c3 →
      ll[4]? >>= parseFloatQ = some k → ll[5]? = some astr →
      Tinker._angle ll = some ⟨c1, c2, c3, (k : ℝ) * 4.184 / (180 / Real.pi) ^ 2, [astr]⟩) ∧
    (∀ (ll : List String) (c1 c2 c3 a1 a2 : String) (k : ℚ),
      ll.length = 8 →
      ll[1]? = some c1 → ll[2]? = some c2 → ll[3]? = some c3 →
      ll[4]? >>= parseFloatQ = some k → ll[5]? = some a1 → ll[6]? = some a2 →
      Tinker._angle ll =
        some ⟨c1, c2, c3, (k : ℝ) * 4.184 / (180 / Real.pi) ^ 2, [a1, a2]⟩) ∧
    (∀ (ll : List String) (c1 c2 c3 a1 a2 a3 : String) (k : ℚ),
      ll.length = 9 →
      ll[1]? = some c1 → ll[2]? = some c2 → ll[3]? = some c3 →
      ll[4]? >>= parseFloatQ = some k → ll[5]? = some a1 → ll[6]? = some a2 →
      ll[7]? = some a3 →
      Tinker._angle ll =
        some ⟨c1, c2, c3, (k : ℝ) * 4.184 / (180 / Real.pi) ^ 2, [a1, a2, a3]⟩) := by
  refine ⟨?_, ?_, ?_, ?_, ?_⟩
  · intro s t1 t2 t3 k a h1 h2 h3 h4 h5
    unfold Frcmod._angle
    rw [h1, h2, h3, h4, h5]
    show some (⟨t1, t2, t3, radiansR (a : ℝ), 2 * k * Frcmod.kcal2kj⟩ : Frcmod.AngleRec) = _
    simp [radiansR, Frcmod.kcal2kj]
  · intro line tok5 a0 a1 a2 k a h5 h2 h3 hs0 hs1 hs2
    unfold Lammps._angle
    rw [h5, h2, h3]
    dsimp only
    rw [hs0, hs1, hs2]
    show some (⟨a0, a1, a2, radiansR (a : ℝ), 2 * k * Lammps.kcal2kj⟩ : Lammps.AngleRec) = _
    simp [radiansR, Lammps.kcal2kj]
  · intro ll c1 c2 c3 astr k hlen h1 h2 h3 h4 h5
    unfold Tinker._angle
    rw [hlen]
    rw [if_pos rfl]
    rw [h1, h2, h3, h4, h5]
  · intro ll c1 c2 c3 a1 a2 k hlen h1 h2 h3 h4 h5 h6
    unfold Tinker._angle
    rw [hlen]
    rw [if_neg (by decide), if_pos rfl]
    rw [h1, h2, h3, h4, h5, h6]
  · intro ll c1 c2 c3 a1 a2 a3 k hlen h1 h2 h3 h4 h5 h6 h7
    unfold Tinker._angle
    rw [hlen]
    rw [if_neg (by decide), if_neg (by decide), if_pos rfl]
    rw [h1, h2, h3, h4, h5, h6, h7]

/-- C5, witness: the five clauses applied to example records of each
dialect, covering all three Tinker angle arities. -/
theorem C5_witness :
    Frcmod._angle "c3-n -c3   63.030     115.640" =
      some ⟨"c3", "n", "c3", ((mkRat 115640 1000 : ℚ) : ℝ) * Real.pi / 180,
        2 * mkRat 63030 1000 * 4.184⟩ ∧
    Lammps._angle "angle_coeff  1  46.2        110.11  # c3-n4-hn" =
      some ⟨"c3", "n4", "hn", ((mkRat 11011 100 : ℚ) : ℝ) * Real.pi / 180,
        2 * mkRat 462 10 * 4.184⟩ ∧
    Tinker._angle ["angle", "53", "54", "54", "69.20", "114.00"] =
      some ⟨"53", "54", "54", ((mkRat 6920 100 : ℚ) : ℝ) * 4.184 / (180 / Real.pi) ^ 2,
        ["114.00"]⟩ ∧
    Tinker._angle ["angle", "53", "54", "54", "69.20", "114.00", "118.00", "0"] =
      some ⟨"53", "54", "54", ((mkRat 6920 100 : ℚ) : ℝ) * 4.184 / (180 / Real.pi) ^ 2,
        ["114.00", "118.00"]⟩ ∧
    Tinker._angle ["angle", "53", "54", "54", "69.20", "110.00", "114.00", "118.00", "0"] =
      some ⟨"53", "54", "54", ((mkRat 6920 100 : ℚ) : ℝ) * 4.184 / (180 / Real.pi) ^ 2,
        ["110.00", "114.00", "118.00"]⟩ :=
  ⟨C5_thm.1 "c3-n -c3   63.030     115.640" "c3" "n" "c3"
      (mkRat 63030 1000) (mkRat 115640 1000) rfl rfl rfl rfl rfl,
   C5_thm.2.1 "angle_coeff  1  46.2        110.11  # c3-n4-hn" "c3-n4-hn" "c3" "n4" "hn"
      (mkRat 462 10) (mkRat 11011 100) rfl rfl rfl rfl rfl rfl,
   C5_thm.2.2.1 ["angle", "53", "54", "54", "69.20", "114.00"] "53" "54" "54" "114.00"
      (mkRat 6920 100) rfl rfl rfl rfl rfl rfl,
   C5_thm.2.2.2.1 ["angle", "53", "54", "54", "69.20", "114.00", "118.00", "0"]
      "53" "54" "54" "114.00" "118.00" (mkRat 6920 100) rfl rfl rfl rfl rfl rfl rfl,
   C5_thm.2.2.2.2 ["angle", "53", "54", "54", "69.20", "110.00", "114.00", "118.00", "0"]
      "53" "54" "54" "110.00" "114.00" "118.00" (mkRat 6920 100)
      rfl rfl rfl rfl rfl rfl rfl rfl⟩

/-- C9, counterexample: the FRCMOD path truncates the periodicity toward
zero — on a line with pn = 2.6 it emits periodicity 2, while the nearest
integer is `round 2.6 = 3`; and the Tinker path does not coerce at all: a
periodicity token `2.6` is passed through verbatim. -/
theorem C9_cex :
    Option.map Frcmod.properPer
      (Frcmod._dihedral "h1-c3-n -c3   6    0.000         0.000           2.6") = some 2 ∧
    round (2.6 : ℚ) = 3 ∧
    Option.map Tinker.torsionPer3 (Tinker._torsion
      ["torsion", "39", "1", "8", "8", "0.982", "0.0", "1", "0.994", "180.0", "2",
       "0.170", "0.0", "2.6"]) = some "2.6" := by
  refine ⟨rfl, ?_, rfl⟩
  rw [round_eq]
  norm_num [Int.floor_eq_iff]

/-- C9 (amended): FRCMOD emits k = `(pk/idivf)*4.184`, LAMMPS k = `k*4.184`,
Tinker k = `k*(4.184/2)` per term; all phases become radians; the
periodicity is truncated toward zero (`int(float)`) on the FRCMOD path,
parsed as a decimal integer on the LAMMPS path, and passed through as the
raw token on the Tinker path. -/
theorem C9_thm :
    (∀ (s t1 t2 t3 t4 : String) (idivf pk ph pn : ℚ),
      (Frcmod.torsionAtoms s)[0]? = some t1 →
      (Frcmod.torsionAtoms s)[1]? = some t2 →
      (Frcmod.torsionAtoms s)[2]? = some t3 →
      (Frcmod.torsionAtoms s)[3]? = some t4 →
      (Frcmod.torsionParams s)[0]? >>= parseFloatQ = some idivf →
      (Frcmod.torsionParams s)[1]? >>= parseFloatQ = some pk →
      (Frcmod.torsionParams s)[2]? >>= parseFloatQ = some ph →
      (Frcmod.torsionParams s)[3]? >>= parseFloatQ = some pn →
      Frcmod._dihedral s =
        some ⟨t1, t2, t3, t4, pyIntTrunc pn, (ph : ℝ) * Real.pi / 180, pk / idivf * 4.184⟩) ∧
    (∀ (line tok7 a0 a1 a2 a3 : String) (k : ℚ) (n d : ℤ),
      (pySplit line)[7]? = some tok7 →
      (pySplit line)[2]? >>= parseFloatQ = some k →
      (pySplit line)[3]? >>= parseIntPy = some n →
      (pySplit line)[4]? >>= parseIntPy = some d →
      (pySplitChar '-' tok7)[0]? = some a0 →
      (pySplitChar '-' tok7)[1]? = some a1 →
      (pySplitChar '-' tok7)[2]? = some a2 →
      (pySplitChar '-' tok7)[3]? = some a3 →
      Lammps._dihedral line =
        some ⟨a0, a1, a2, a3, n, ((d : ℤ) : ℝ) * Real.pi / 180, k * 4.184⟩) ∧
    (∀ (ll : List String) (c1 c2 c3 c4 n1 n2 n3 : String) (q1 p1 q2 p2 q3 p3 : ℚ),
      ll[1]? = some c1 → ll[2]? = some c2 → ll[3]? = some c3 → ll[4]? = some c4 →
      ll[5]? >>= parseFloatQ = some q1 → ll[6]? >>= parseFloatQ = some p1 →
      ll[7]? = some n1 →
      ll[8]? >>= parseFloatQ = some q2 → ll[9]? >>= parseFloatQ = some p2 →
      ll[10]? = some n2 →
      ll[11]? >>= parseFloatQ = some q3 → ll[12]? >>= parseFloatQ = some p3 →
      ll[13]? = some n3 →
      Tinker._torsion ll =
        some ⟨c1, c2, c3, c4, q1 * (4.184 / 2), (p1 : ℝ) * (Real.pi / 180), n1,
          q2 * (4.184 / 2), (p2 : ℝ) * (Real.pi / 180), n2,
          q3 * (4.184 / 2), (p3 : ℝ) * (Real.pi / 180), n3⟩) := by
  refine ⟨?_, ?_, ?_⟩
  · intro s t1 t2 t3 t4 idivf pk ph pn h1 h2 h3 h4 h5 h6 h7 h8
    unfold Frcmod._dihedral
    rw [h1, h2, h3, h4, h5, h6, h7, h8]
    show some (⟨t1, t2, t3, t4, pyIntTrunc pn, radiansR (ph : ℝ),
      pk / idivf * Frcmod.kcal2kj⟩ : Frcmod.ProperRec) = _
    simp [radiansR, Frcmod.kcal2kj]
  · intro line tok7 a0 a1 a2 a3 k n d h7 h2 h3 h4 hs0 hs1 hs2 hs3
    unfold Lammps._dihedral
    rw [h7, h2, h3, h4]
    dsimp only
    rw [hs0, hs1, hs2, hs3]
    show some (⟨a0, a1, a2, a3, n, radiansR ((d : ℤ) : ℝ),
      k * Lammps.kcal2kj⟩ : Lammps.ProperRec) = _
    simp [radiansR, Lammps.kcal2kj]
  · intro ll c1 c2 c3 c4 n1 n2 n3 q1 p1 q2 p2 q3 p3 h1 h2 h3 h4 h5 h6 h7 h8 h9 h10 h11 h12 h13
    unfold Tinker._torsion
    rw [h1, h2, h3, h4, h5, h6, h7, h8, h9, h10, h11, h12, h13]

/-- C9, witness: the three clauses applied to the doc-comment example
records of each dialect. -/
theorem C9_witness :
    Frcmod._dihedral "h1-c3-n -c3   6    0.000         0.000           2.000" =
      some ⟨"h1", "c3", "n", "c3", pyIntTrunc (mkRat 2000 1000),
        ((mkRat 0 1000 : ℚ) : ℝ) * Real.pi / 180, mkRat 0 1000 / mkRat 6 1 * 4.184⟩ ∧
    Lammps._dihedral "dihedral_coeff  1  0.1556     3   0   0.00000000    # hx-c3-n4-hn" =
      some ⟨"hx", "c3", "n4", "hn", 3, ((0 : ℤ) : ℝ) * Real.pi / 180,
        mkRat 1556 10000 * 4.184⟩ ∧
    Tinker._torsion ["torsion", "39", "1", "8", "8", "0.982", "0.0", "1", "0.994",
        "180.0", "2", "0.170", "0.0", "3"] =
      some ⟨"39", "1", "8", "8", mkRat 982 1000 * (4.184 / 2),
        ((mkRat 0 10 : ℚ) : ℝ) * (Real.pi / 180), "1",
        mkRat 994 1000 * (4.184 / 2), ((mkRat 1800 10 : ℚ) : ℝ) * (Real.pi / 180), "2",
        mkRat 170 1000 * (4.184 / 2), ((mkRat 0 10 : ℚ) : ℝ) * (Real.pi / 180), "3"⟩ :=
  ⟨C9_thm.1 "h1-c3-n -c3   6    0.000         0.000           2.000" "h1" "c3" "n" "c3"
      (mkRat 6 1) (mkRat 0 1000) (mkRat 0 1000) (mkRat 2000 1000)
      rfl rfl rfl rfl rfl rfl rfl rfl,
   C9_thm.2.1 "dihedral_coeff  1  0.1556     3   0   0.00000000    # hx-c3-n4-hn"
      "hx-c3-n4-hn" "hx" "c3" "n4" "hn" (mkRat 1556 10000) 3 0
      rfl rfl rfl rfl rfl rfl rfl rfl,
   C9_thm.2.2 ["torsion", "39", "1", "8", "8", "0.982", "0.0", "1", "0.994", "180.0",
      "2", "0.170", "0.0", "3"] "39" "1" "8" "8" "1" "2" "3"
      (mkRat 982 1000) (mkRat 0 10) (mkRat 994 1000) (mkRat 1800 10)
      (mkRat 170 1000) (mkRat 0 10)
      rfl rfl rfl rfl rfl rfl rfl rfl rfl rfl rfl rfl rfl⟩

/-- Characterization of `_nonbonding` on a same-type `lj*` pair line: one
record printed, the record returned, named by comment token index 7. -/
theorem nb_same_lj (line a1 st t7 nm : String) (e s : ℚ)
    (h1 : (pySplit line)[1]? = some a1) (h2 : (pySplit line)[2]? = some a1)
    (h3 : (pySplit line)[3]? = some st) (hlj : pyStartsWith st "lj" = true)
    (h4 : (pySplit line)[4]? >>= parseFloatQ = some e)
    (h5 : (pySplit line)[5]? >>= parseFloatQ = some s)
    (h7 : (pySplit line)[7]? = some t7)
    (hnm : (pySplitChar '-' t7)[1]? = some nm) :
    Lammps._nonbonding line =
      some ([Lammps.NBOut.record nm (Lammps.ang2nm * s) (Lammps.kcal2kj * e)],
        Lammps.NBRet.record nm (Lammps.ang2nm * s) (Lammps.kcal2kj * e)) := by
  have hbuck : pyStartsWith st "buck" = false := startsWith_lj_not_buck st hlj
  unfold Lammps._nonbonding
  rw [h1, h2, h3, h4, h5]
  dsimp only
  rw [if_pos ⟨rfl, hlj⟩, h7]
  dsimp only
  rw [hnm]
  dsimp only
  rw [if_neg (fun hc => Bool.false_ne_true (hbuck ▸ hc.2))]

/-- Characterization of `_nonbonding` on a mixed-type `lj*` pair line: the
grey passthrough and the diagnostic are printed, no record, empty return. -/
theorem nb_mixed_lj (line a1 a2 st t7 : String) (e s : ℚ)
    (h1 : (pySplit line)[1]? = some a1) (h2 : (pySplit line)[2]? = some a2)
    (hne : a1 ≠ a2)
    (h3 : (pySplit line)[3]? = some st) (hlj : pyStartsWith st "lj" = true)
    (h4 : (pySplit line)[4]? >>= parseFloatQ = some e)
    (h5 : (pySplit line)[5]? >>= parseFloatQ = some s)
    (h7 : (pySplit line)[7]? = some t7) :
    Lammps._nonbonding line =
      some ([Lammps.NBOut.grey (pyStrip line),
        Lammps.NBOut.diag t7 (Lammps.ang2nm * s) (Lammps.kcal2kj * e)],
        Lammps.NBRet.empty) := by
  unfold Lammps._nonbonding
  rw [h1, h2, h3, h4, h5]
  dsimp only
  rw [if_neg (fun hc => hne hc.1), if_pos ⟨hne, hlj⟩, h7]
  dsimp only
  rw [if_neg (fun hc => hne hc.1)]

/-- Characterization of `_nonbonding` on a same-type `buck*` pair line with
at least nine tokens: the grey passthrough and the zero-valued placeholder
record (named by comment token index 8) are printed, empty return. -/
theorem nb_same_buck (line a1 st t8 nm : String) (e s : ℚ)
    (h1 : (pySplit line)[1]? = some a1) (h2 : (pySplit line)[2]? = some a1)
    (h3 : (pySplit line)[3]? = some st) (hbuck : pyStartsWith st "buck" = true)
    (h4 : (pySplit line)[4]? >>= parseFloatQ = some e)
    (h5 : (pySplit line)[5]? >>= parseFloatQ = some s)
    (h8 : (pySplit line)[8]? = some t8)
    (hnm : (pySplitChar '-' t8)[1]? = some nm) :
    Lammps._nonbonding line =
      some ([Lammps.NBOut.grey (pyStrip line), Lammps.NBOut.record nm 0 0],
        Lammps.NBRet.empty) := by
  have hlj : pyStartsWith st "lj" = false := startsWith_buck_not_lj st hbuck
  unfold Lammps._nonbonding
  rw [h1, h2, h3, h4, h5]
  dsimp only
  rw [if_neg (fun hc => Bool.false_ne_true (hlj ▸ hc.2)),
      if_neg (fun hc => Bool.false_ne_true (hlj ▸ hc.2))]
  dsimp only
  rw [if_pos ⟨rfl, hbuck⟩, h8]
  dsimp only
  rw [hnm]
  rfl

/-- A same-type `buck*` pair line with fewer than nine tokens fails inside
`_nonbonding` (IndexError on token 8 in the source). -/
theorem nb_same_buck_short (line a1 st : String)
    (h1 : (pySplit line)[1]? = some a1) (h2 : (pySplit line)[2]? = some a1)
    (h3 : (pySplit line)[3]? = some st) (hbuck : pyStartsWith st "buck" = true)
    (hlen : (pySplit line).length < 9) :
    Lammps._nonbonding line = none := by
  have hlj : pyStartsWith st "lj" = false := startsWith_buck_not_lj st hbuck
  have h8 : (pySplit line)[8]? = none := by
    rw [List.getElem?_eq_none]
    omega
  unfold Lammps._nonbonding
  cases h4 : (pySplit line)[4]? >>= parseFloatQ with
  | none => rw [h1, h2, h3]
  | some e =>
    cases h5 : (pySplit line)[5]? >>= parseFloatQ with
    | none => rw [h1, h2, h3]
    | some s =>
      rw [h1, h2, h3]
      dsimp only
      rw [if_neg (fun hc => Bool.false_ne_true (hlj ▸ hc.2)),
          if_neg (fun hc => Bool.false_ne_true (hlj ▸ hc.2))]
      dsimp only
      rw [if_pos ⟨rfl, hbuck⟩, h8]

/-- C7: a mixed-type `lj*` pair never yields a nonbonded record — only the
grey passthrough plus the would-be sigma/epsilon diagnostic, with `""`
returned — and a same-type `buck*` pair always emits the zero-valued
placeholder record irrespective of the numeric values on the line. -/
theorem C7_thm :
    (∀ (line a1 a2 st t7 : String) (e s : ℚ),
      (pySplit line)[1]? = some a1 → (pySplit line)[2]? = some a2 → a1 ≠ a2 →
      (pySplit line)[3]? = some st → pyStartsWith st "lj" = true →
      (pySplit line)[4]? >>= parseFloatQ = some e →
      (pySplit line)[5]? >>= parseFloatQ = some s →
      (pySplit line)[7]? = some t7 →
      Lammps._nonbonding line =
        some ([Lammps.NBOut.grey (pyStrip line),
          Lammps.NBOut.diag t7 (Lammps.ang2nm * s) (Lammps.kcal2kj * e)],
          Lammps.NBRet.empty)) ∧
    (∀ (line a1 st t8 nm : String) (e s : ℚ),
      (pySplit line)[1]? = some a1 → (pySplit line)[2]? = some a1 →
      (pySplit line)[3]? = some st → pyStartsWith st "buck" = true →
      (pySplit line)[4]? >>= parseFloatQ = some e →
      (pySplit line)[5]? >>= parseFloatQ = some s →
      (pySplit line)[8]? = some t8 →
      (pySplitChar '-' t8)[1]? = some nm →
      Lammps._nonbonding line =
        some ([Lammps.NBOut.grey (pyStrip line), Lammps.NBOut.record nm 0 0],
          Lammps.NBRet.empty)) :=
  ⟨fun line a1 a2 st t7 e s h1 h2 hne h3 hlj h4 h5 h7 =>
      nb_mixed_lj line a1 a2 st t7 e s h1 h2 hne h3 hlj h4 h5 h7,
   fun line a1 st t8 nm e s h1 h2 h3 hb h4 h5 h8 hnm =>
      nb_same_buck line a1 st t8 nm e s h1 h2 h3 hb h4 h5 h8 hnm⟩

/-- C7, witness: a mixed-type LJ line yields only the diagnostic pair of
printed lines, and a same-type Buckingham line yields the zero placeholder. -/
theorem C7_witness :
    Lammps._nonbonding
        "pair_coeff   1 3   lj/charmm/coul/long   1.4E-002   2.26454  # pb-hn" =
      some ([Lammps.NBOut.grey
          (pyStrip "pair_coeff   1 3   lj/charmm/coul/long   1.4E-002   2.26454  # pb-hn"),
        Lammps.NBOut.diag "pb-hn" (Lammps.ang2nm * mkRat 226454 100000)
          (Lammps.kcal2kj * mkRat 14 1000)], Lammps.NBRet.empty) ∧
    Lammps._nonbonding "pair_coeff   2 2   buck   386438.9   0.3   23.0   # pb-pb" =
      some ([Lammps.NBOut.grey
          (pyStrip "pair_coeff   2 2   buck   386438.9   0.3   23.0   # pb-pb"),
        Lammps.NBOut.record "pb" 0 0], Lammps.NBRet.empty) :=
  ⟨C7_thm.1 "pair_coeff   1 3   lj/charmm/coul/long   1.4E-002   2.26454  # pb-hn"
      "1" "3" "lj/charmm/coul/long" "pb-hn" (mkRat 14 1000) (mkRat 226454 100000)
      rfl rfl (by decide) rfl rfl rfl rfl rfl,
   C7_thm.2 "pair_coeff   2 2   buck   386438.9   0.3   23.0   # pb-pb"
      "2" "buck" "pb-pb" "pb" (mkRat 3864389 10) (mkRat 3 10)
      rfl rfl rfl rfl rfl rfl rfl rfl⟩

/-- C10: a same-type `buck*` line prints the grey passthrough then the
zero-valued placeholder whose atom name comes from token index 8, returns
the empty result; with fewer than nine tokens the conversion fails; and a
same-type `lj*` line reads its atom name from token index 7 instead. -/
theorem C10_thm :
    (∀ (line a1 st t8 nm : String) (e s : ℚ),
      (pySplit line)[1]? = some a1 → (pySplit line)[2]? = some a1 →
      (pySplit line)[3]? = some st → pyStartsWith st "buck" = true →
      (pySplit line)[4]? >>= parseFloatQ = some e →
      (pySplit line)[5]? >>= parseFloatQ = some s →
      (pySplit line)[8]? = some t8 →
      (pySplitChar '-' t8)[1]? = some nm →
      Lammps._nonbonding line =
        some ([Lammps.NBOut.grey (pyStrip line), Lammps.NBOut.record nm 0 0],
          Lammps.NBRet.empty)) ∧
    (∀ (line a1 st : String),
      (pySplit line)[1]? = some a1 → (pySplit line)[2]? = some a1 →
      (pySplit line)[3]? = some st → pyStartsWith st "buck" = true →
      (pySplit line).length < 9 →
      Lammps._nonbonding line = none) ∧
    (∀ (line a1 st t7 nm : String) (e s : ℚ),
      (pySplit line)[1]? = some a1 → (pySplit line)[2]? = some a1 →
      (pySplit line)[3]? = some st → pyStartsWith st "lj" = true →
      (pySplit line)[4]? >>= parseFloatQ = some e →
      (pySplit line)[5]? >>= parseFloatQ = some s →
      (pySplit line)[7]? = some t7 →
      (pySplitChar '-' t7)[1]? = some nm →
      Lammps._nonbonding line =
        some ([Lammps.NBOut.record nm (Lammps.ang2nm * s) (Lammps.kcal2kj * e)],
          Lammps.NBRet.record nm (Lammps.ang2nm * s) (Lammps.kcal2kj * e))) :=
  ⟨fun line a1 st t8 nm e s h1 h2 h3 hb h4 h5 h8 hnm =>
      nb_same_buck line a1 st t8 nm e s h1 h2 h3 hb h4 h5 h8 hnm,
   fun line a1 st h1 h2 h3 hb hlen => nb_same_buck_short line a1 st h1 h2 h3 hb hlen,
   fun line a1 st t7 nm e s h1 h2 h3 hlj h4 h5 h7 hnm =>
      nb_same_lj line a1 st t7 nm e s h1 h2 h3 hlj h4 h5 h7 hnm⟩

/-- C10, witness: the three clauses at concrete pair lines — a 9-token
same-type buck line, a 6-token same-type buck line, and a same-type lj
line. -/
theorem C10_witness :
    Lammps._nonbonding "pair_coeff   4 4   buck/coul   100.0   0.5   12.0   # mg-mg" =
      some ([Lammps.NBOut.grey
          (pyStrip "pair_coeff   4 4   buck/coul   100.0   0.5   12.0   # mg-mg"),
        Lammps.NBOut.record "mg" 0 0], Lammps.NBRet.empty) ∧
    Lammps._nonbonding "pair_coeff   4 4   buck   1.0   2.0" = none ∧
    Lammps._nonbonding "pair_coeff   5 5   lj/cut   0.25   3.5  # li-li" =
      some ([Lammps.NBOut.record "li" (Lammps.ang2nm * mkRat 35 10)
          (Lammps.kcal2kj * mkRat 25 100)],
        Lammps.NBRet.record "li" (Lammps.ang2nm * mkRat 35 10)
          (Lammps.kcal2kj * mkRat 25 100)) :=
  ⟨C10_thm.1 "pair_coeff   4 4   buck/coul   100.0   0.5   12.0   # mg-mg"
      "4" "buck/coul" "mg-mg" "mg" (mkRat 1000 10) (mkRat 5 10)
      rfl rfl rfl rfl rfl rfl rfl rfl,
   C10_thm.2.1 "pair_coeff   4 4   buck   1.0   2.0" "4" "buck"
      rfl rfl rfl rfl (by decide),
   C10_thm.2.2 "pair_coeff   5 5   lj/cut   0.25   3.5  # li-li"
      "5" "lj/cut" "li-li" "li" (mkRat 25 100) (mkRat 35 10)
      rfl rfl rfl rfl rfl rfl rfl rfl⟩

/-- C2, counterexample: in the Tinker dialect a comment line (or any line
with fewer than three tokens) is dropped — the run produces no output for
it — and an unrecognized line with three or more tokens is emitted with a
`skipping line:` prefix added, not as its bare trimmed content. -/
theorem C2_cex :
    Tinker.tinkerDrive ["# a b c"] = some [] ∧
    Tinker.tinkerDrive ["foo bar baz"] =
      some [Tinker.TOut.skip
        (Tinker.CGREY ++ "skipping line:  " ++ "foo bar baz" ++ Tinker.CEND)] :=
  ⟨rfl, rfl⟩

/-- C2 (amended): the passthrough invariant holds in the LAMMPS dialect —
every line whose first token is none of the four `*_coeff` keywords is
emitted exactly once as its trimmed content wrapped in grey colour markers,
never dropped.  In the Tinker dialect, comment lines and lines with fewer
than three tokens produce no output, and other unrecognized lines are
emitted with a grey `skipping line:` prefix. -/
theorem C2_thm :
    (∀ line : String,
      (pySplit (pyStrip line))[0]? ≠ some "bond_coeff" →
      (pySplit (pyStrip line))[0]? ≠ some "angle_coeff" →
      (pySplit (pyStrip line))[0]? ≠ some "dihedral_coeff" →
      (pySplit (pyStrip line))[0]? ≠ some "pair_coeff" →
      Lammps.processLine line =
        some [Lammps.LOut.grey (Lammps.CGREY ++ pyStrip line ++ Lammps.CEND)]) ∧
    (∀ (line : String) (rest : List String),
      (pySplit (pyStrip line)).length < 3 ∨
        pyStartsWith ((pySplit (pyStrip line)).headD "") "#" = true →
      Tinker.tinkerDrive (line :: rest) = Tinker.tinkerDrive rest) ∧
    (∀ (line : String) (rest : List String),
      ¬ (pySplit (pyStrip line)).length < 3 →
      pyStartsWith ((pySplit (pyStrip line)).headD "") "#" = false →
      pyStartsWith ((pySplit (pyStrip line)).headD "") "bond" = false →
      pyStartsWith ((pySplit (pyStrip line)).headD "") "angle" = false →
      pyStartsWith ((pySplit (pyStrip line)).headD "") "strbnd" = false →
      pyStartsWith ((pySplit (pyStrip line)).headD "") "torsion" = false →
      pyStartsWith ((pySplit (pyStrip line)).headD "") "vdw" = false →
      pyStartsWith ((pySplit (pyStrip line)).headD "") "opbend" = false →
      pyStartsWith ((pySplit (pyStrip line)).headD "") "pitors" = false →
      pyStartsWith ((pySplit (pyStrip line)).headD "") "multipole" = false →
      pyStartsWith ((pySplit (pyStrip line)).headD "") "polarize" = false →
      Tinker.tinkerDrive (line :: rest) =
        Tinker.consOut (some (Tinker.TOut.skip
          (Tinker.CGREY ++ "skipping line:  " ++ pyStrip line ++ Tinker.CEND)))
          (Tinker.tinkerDrive rest)) := by
  refine ⟨?_, ?_, ?_⟩
  · intro line hb ha hd hp
    unfold Lammps.processLine
    dsimp only
    rw [if_neg (fun hc => hb hc.2), if_neg (fun hc => ha hc.2),
        if_neg (fun hc => hd hc.2), if_neg (fun hc => hp hc.2)]
  · intro line rest hcond
    unfold Tinker.tinkerDrive
    conv_lhs => rw [Tinker.driveAux.eq_def]
    dsimp only
    rw [if_pos hcond]
  · intro line rest hlen hhash hbond hangle hstrbnd htors hvdw hopb hpit hmul hpol
    unfold Tinker.tinkerDrive
    conv_lhs => rw [Tinker.driveAux.eq_def]
    dsimp only
    rw [if_neg (by
      intro hor
      rcases hor with hlt | hh
      · exact hlen hlt
      · rw [hhash] at hh; exact Bool.false_ne_true hh)]
    rw [if_neg (by rw [hbond]; exact Bool.false_ne_true)]
    rw [if_neg (by rw [hangle]; exact Bool.false_ne_true)]
    rw [if_neg (by rw [hstrbnd]; exact Bool.false_ne_true)]
    rw [if_neg (by rw [htors]; exact Bool.false_ne_true)]
    rw [if_neg (by rw [hvdw]; exact Bool.false_ne_true)]
    rw [if_neg (by rw [hopb]; exact Bool.false_ne_true)]
    rw [if_neg (by rw [hpit]; exact Bool.false_ne_true)]
    rw [if_neg (by rw [hmul]; exact Bool.false_ne_true)]
    rw [if_neg (by rw [hpol]; exact Bool.false_ne_true)]
    rw [if_neg (by rw [hopb]; exact Bool.false_ne_true)]

/-- C2, witness: the three clauses at concrete lines — an unrecognized
LAMMPS line emitted in grey, a dropped Tinker comment line, and a Tinker
skip line. -/
theorem C2_witness :
    Lammps.processLine "  hello world  " =
      some [Lammps.LOut.grey (Lammps.CGREY ++ pyStrip "  hello world  " ++ Lammps.CEND)] ∧
    Tinker.tinkerDrive ["# x y z"] = Tinker.tinkerDrive [] ∧
    Tinker.tinkerDrive ["foo bar qux"] =
      Tinker.consOut (some (Tinker.TOut.skip
        (Tinker.CGREY ++ "skipping line:  " ++ pyStrip "foo bar qux" ++ Tinker.CEND)))
        (Tinker.tinkerDrive []) :=
  ⟨C2_thm.1 "  hello world  " (by decide) (by decide) (by decide) (by decide),
   C2_thm.2.1 "# x y z" [] (by decide),
   C2_thm.2.2 "foo bar qux" [] (by decide) (by decide) (by decide) (by decide)
     (by decide) (by decide) (by decide) (by decide) (by decide) (by decide) (by decide)⟩

/-- C8, counterexample: Python `sys.exit()` with no argument terminates the
process with exit status 0 — a success code, not a non-zero-equivalent — in
all three entry points. -/
theorem C8_cex :
    exitCode (tinkerCliCheck ["script.py"]) = some 0 ∧
    exitCode (lammpsCliCheck ["script.py"]) = some 0 ∧
    exitCode (frcmodCliCheck ["script.py"]) = some 0 :=
  ⟨rfl, rfl, rfl⟩

/-- C8 (amended): with zero positional arguments or more than one, each of
the three entry points prints its usage message and terminates via
`sys.exit()` — exit status 0 — without reaching the core conversion. -/
theorem C8_thm (argv : List String) (h : argv.length ≠ 2) :
    tinkerCliCheck argv = CliStart.exit ⟨["No AMOEBA Force Field file specified!",
      "USAGE: script.py tinker-parameter-file.prm"], 0⟩ ∧
    lammpsCliCheck argv = CliStart.exit ⟨["No LAMMPS param file specified!",
      "USAGE: script.py lig.param"], 0⟩ ∧
    frcmodCliCheck argv = CliStart.exit ⟨["No FRCMOD file specified!",
      "USAGE: script.py lig.frcmod"], 0⟩ := by
  unfold tinkerCliCheck lammpsCliCheck frcmodCliCheck
  rw [if_neg h, if_neg h, if_neg h]
  exact ⟨rfl, rfl, rfl⟩

/-- C8, witness: the amended claim at an `argv` holding only the script
name (zero positional arguments). -/
theorem C8_witness :
    tinkerCliCheck ["script.py"] = CliStart.exit ⟨["No AMOEBA Force Field file specified!",
      "USAGE: script.py tinker-parameter-file.prm"], 0⟩ ∧
    lammpsCliCheck ["script.py"] = CliStart.exit ⟨["No LAMMPS param file specified!",
      "USAGE: script.py lig.param"], 0⟩ ∧
    frcmodCliCheck ["script.py"] = CliStart.exit ⟨["No FRCMOD file specified!",
      "USAGE: script.py lig.frcmod"], 0⟩ :=
  C8_thm ["script.py"] (by decide)

/-- C1, counterexample: on a well-formed five-line Tinker multipole record
(header plus four continuation lines, 14 tokens in all) the source loop
succeeds, while a loop that consumed only the next three lines — the
claim's reading — would aggregate 11 tokens and fail.  The two drivers
disagree on this file, so the aggregator does not consume exactly three
lines. -/
theorem C1_cex :
    Tinker.tinkerDrive ["multipole 7 44 10 -0.14168", "0.07684 0.00000 0.42468",
      "0.07677", "0.00000 -1.10639", "-0.13195 0.00000 1.02962"] ≠
    Tinker.tinkerDriveSpec3 ["multipole 7 44 10 -0.14168", "0.07684 0.00000 0.42468",
      "0.07677", "0.00000 -1.10639", "-0.13195 0.00000 1.02962"] := by
  intro h
  have h2 : (Tinker.tinkerDrive ["multipole 7 44 10 -0.14168", "0.07684 0.00000 0.42468",
      "0.07677", "0.00000 -1.10639", "-0.13195 0.00000 1.02962"]).isSome = true := rfl
  rw [h, show Tinker.tinkerDriveSpec3 ["multipole 7 44 10 -0.14168",
      "0.07684 0.00000 0.42468", "0.07677", "0.00000 -1.10639",
      "-0.13195 0.00000 1.02962"] = none from rfl] at h2
  exact Bool.false_ne_true h2

/-- C1 (amended): on encountering a line whose first token starts with
`multipole`, the aggregator consumes exactly the next FOUR lines
unconditionally and concatenates all FIVE token lists (header plus four
continuations) into one logical record before it is passed to the multipole
conversion function; the loop resumes after the consumed lines. -/
theorem C1_thm (h c1 c2 c3 c4 : String) (rest : List String)
    (hlen : ¬ (pySplit (pyStrip h)).length < 3)
    (hhash : pyStartsWith ((pySplit (pyStrip h)).headD "") "#" = false)
    (hbond : pyStartsWith ((pySplit (pyStrip h)).headD "") "bond" = false)
    (hangle : pyStartsWith ((pySplit (pyStrip h)).headD "") "angle" = false)
    (hstrbnd : pyStartsWith ((pySplit (pyStrip h)).headD "") "strbnd" = false)
    (htors : pyStartsWith ((pySplit (pyStrip h)).headD "") "torsion" = false)
    (hvdw : pyStartsWith ((pySplit (pyStrip h)).headD "") "vdw" = false)
    (hopb : pyStartsWith ((pySplit (pyStrip h)).headD "") "opbend" = false)
    (hpit : pyStartsWith ((pySplit (pyStrip h)).headD "") "pitors" = false)
    (hmul : pyStartsWith ((pySplit (pyStrip h)).headD "") "multipole" = true) :
    Tinker.tinkerDrive (h :: c1 :: c2 :: c3 :: c4 :: rest) =
      Tinker.consOut (Option.map Tinker.TOut.multipole (Tinker._multipole
        (pySplit (pyStrip h) ++ pySplit (pyStrip c1) ++ pySplit (pyStrip c2)
          ++ pySplit (pyStrip c3) ++ pySplit (pyStrip c4))))
        (Tinker.tinkerDrive rest) :=
  tinkerDrive_multipole h c1 c2 c3 c4 rest hlen hhash hbond hangle hstrbnd htors
    hvdw hopb hpit hmul

/-- C1, witness: the amended claim at the concrete five-line multipole
record with an empty remainder. -/
theorem C1_witness :
    Tinker.tinkerDrive ["multipole 7 44 10 -0.14168", "0.07684 0.00000 0.42468",
      "0.07677", "0.00000 -1.10639", "-0.13195 0.00000 1.02962"] =
      Tinker.consOut (Option.map Tinker.TOut.multipole (Tinker._multipole
        (pySplit (pyStrip "multipole 7 44 10 -0.14168")
          ++ pySplit (pyStrip "0.07684 0.00000 0.42468")
          ++ pySplit (pyStrip "0.07677")
          ++ pySplit (pyStrip "0.00000 -1.10639")
          ++ pySplit (pyStrip "-0.13195 0.00000 1.02962"))))
        (Tinker.tinkerDrive []) :=
  C1_thm "multipole 7 44 10 -0.14168" "0.07684 0.00000 0.42468" "0.07677"
    "0.00000 -1.10639" "-0.13195 0.00000 1.02962" []
    (by decide) (by decide) (by decide) (by decide) (by decide) (by decide)
    (by decide) (by decide) (by decide) (by decide)

/-- C6, counterexample: a Tinker multipole aggregate with 13 tokens makes
the conversion fail and the failure aborts the whole run — the following
`vdw` line, itself convertible in isolation, is never processed and the
driver yields no output at all, contradicting local recovery. -/
theorem C6_cex :
    Tinker.tinkerDrive ["multipole 7 44 10 -0.14168", "0.07684 0.00000 0.42468",
      "0.07677", "0.00000 -1.10639", "-0.13195 0.00000", "vdw 26 3.8000 0.1010"] =
      none ∧
    (Tinker._vdw ["vdw", "26", "3.8000", "0.1010"]).isSome = true :=
  ⟨rfl, rfl⟩

/-- A Tinker angle token list whose length is none of 6, 8 or 9 falls
through every branch of `tinker2omm._angle` and leaves its result unbound:
the conversion fails. -/
theorem angle_arity_none (ll : List String) (h6 : ll.length ≠ 6)
    (h8 : ll.length ≠ 8) (h9 : ll.length ≠ 9) : Tinker._angle ll = none := by
  unfold Tinker._angle
  rw [if_neg h6, if_neg h8, if_neg h9]

/-- Dispatch step of the Tinker loop at an `angle` keyword line: the line's
tokens go to the angle converter and the loop continues. -/
theorem driveAux_dispatch_angle (h : String) (t : List String)
    (hlen : ¬ (pySplit (pyStrip h)).length < 3)
    (hhash : pyStartsWith ((pySplit (pyStrip h)).headD "") "#" = false)
    (hbond : pyStartsWith ((pySplit (pyStrip h)).headD "") "bond" = false)
    (hangle : pyStartsWith ((pySplit (pyStrip h)).headD "") "angle" = true) :
    Tinker.driveAux (h :: t) none =
      Tinker.consOut (Option.map Tinker.TOut.angle (Tinker._angle (pySplit (pyStrip h))))
        (Tinker.driveAux t none) := by
  conv_lhs => rw [Tinker.driveAux.eq_def]
  dsimp only
  rw [if_neg (by
    intro hor
    rcases hor with hlt | hh
    · exact hlen hlt
    · rw [hhash] at hh; exact Bool.false_ne_true hh)]
  rw [if_neg (by rw [hbond]; exact Bool.false_ne_true)]
  rw [if_pos hangle]

/-- C6 (amended): a Tinker multipole aggregate whose token count is neither
14 nor 15 is rejected by the converter (no record is produced), and in the
driver the failure aborts the run: whatever lines follow, the output is
`none` (the uncaught exception), not a passthrough rendering.  Likewise a
malformed `angle` line — token count none of 6, 8 or 9 — makes the angle
converter fail and aborts the run the same way. -/
theorem C6_thm :
    (∀ ll : List String, ll.length ≠ 14 → ll.length ≠ 15 →
      Tinker._multipole ll = none) ∧
    (∀ (h c1 c2 c3 c4 : String) (rest : List String),
      ¬ (pySplit (pyStrip h)).length < 3 →
      pyStartsWith ((pySplit (pyStrip h)).headD "") "#" = false →
      pyStartsWith ((pySplit (pyStrip h)).headD "") "bond" = false →
      pyStartsWith ((pySplit (pyStrip h)).headD "") "angle" = false →
      pyStartsWith ((pySplit (pyStrip h)).headD "") "strbnd" = false →
      pyStartsWith ((pySplit (pyStrip h)).headD "") "torsion" = false →
      pyStartsWith ((pySplit (pyStrip h)).headD "") "vdw" = false →
      pyStartsWith ((pySplit (pyStrip h)).headD "") "opbend" = false →
      pyStartsWith ((pySplit (pyStrip h)).headD "") "pitors" = false →
      pyStartsWith ((pySplit (pyStrip h)).headD "") "multipole" = true →
      (pySplit (pyStrip h) ++ pySplit (pyStrip c1) ++ pySplit (pyStrip c2)
        ++ pySplit (pyStrip c3) ++ pySplit (pyStrip c4)).length ≠ 14 →
      (pySplit (pyStrip h) ++ pySplit (pyStrip c1) ++ pySplit (pyStrip c2)
        ++ pySplit (pyStrip c3) ++ pySplit (pyStrip c4)).length ≠ 15 →
      Tinker.tinkerDrive (h :: c1 :: c2 :: c3 :: c4 :: rest) = none) ∧
    (∀ ll : List String, ll.length ≠ 6 → ll.length ≠ 8 → ll.length ≠ 9 →
      Tinker._angle ll = none) ∧
    (∀ (line : String) (rest : List String),
      ¬ (pySplit (pyStrip line)).length < 3 →
      pyStartsWith ((pySplit (pyStrip line)).headD "") "#" = false →
      pyStartsWith ((pySplit (pyStrip line)).headD "") "bond" = false →
      pyStartsWith ((pySplit (pyStrip line)).headD "") "angle" = true →
      (pySplit (pyStrip line)).length ≠ 6 →
      (pySplit (pyStrip line)).length ≠ 8 →
      (pySplit (pyStrip line)).length ≠ 9 →
      Tinker.tinkerDrive (line :: rest) = none) := by
  refine ⟨multipole_arity_none, ?_, angle_arity_none, ?_⟩
  · intro h c1 c2 c3 c4 rest hlen hhash hbond hangle hstrbnd htors hvdw hopb hpit hmul h14 h15
    rw [tinkerDrive_multipole h c1 c2 c3 c4 rest hlen hhash hbond hangle hstrbnd htors
      hvdw hopb hpit hmul]
    rw [multipole_arity_none _ h14 h15]
    rfl
  · intro line rest hlen hhash hbond hangle h6 h8 h9
    unfold Tinker.tinkerDrive
    rw [driveAux_dispatch_angle line rest hlen hhash hbond hangle]
    rw [angle_arity_none _ h6 h8 h9]
    rfl

/-- C6, witness: the four clauses at concrete inputs — a 13-token multipole
list, a five-line truncated multipole record whose aggregate has 13 tokens,
a malformed 7-token angle list, and a run holding a malformed angle line
followed by a convertible `vdw` line, which aborts. -/
theorem C6_witness :
    Tinker._multipole ["multipole", "7", "44", "10", "-0.14168", "0.07684", "0.00000",
      "0.42468", "0.07677", "0.00000", "-1.10639", "-0.13195", "0.00000"] = none ∧
    Tinker.tinkerDrive ["multipole 7 44 10 -0.14168", "0.07684 0.00000 0.42468",
      "0.07677", "0.00000 -1.10639", "-0.13195 0.00000"] = none ∧
    Tinker._angle ["angle", "53", "54", "54", "69.20", "114.00", "118.00"] = none ∧
    Tinker.tinkerDrive ["angle 53 54 54 69.20 114.00 118.00", "vdw 26 3.8000 0.1010"] =
      none :=
  ⟨C6_thm.1 ["multipole", "7", "44", "10", "-0.14168", "0.07684", "0.00000",
      "0.42468", "0.07677", "0.00000", "-1.10639", "-0.13195", "0.00000"]
      (by decide) (by decide),
   C6_thm.2.1 "multipole 7 44 10 -0.14168" "0.07684 0.00000 0.42468" "0.07677"
      "0.00000 -1.10639" "-0.13195 0.00000" []
      (by decide) (by decide) (by decide) (by decide) (by decide) (by decide)
      (by decide) (by decide) (by decide) (by decide) (by decide) (by decide),
   C6_thm.2.2.1 ["angle", "53", "54", "54", "69.20", "114.00", "118.00"]
      (by decide) (by decide) (by decide),
   C6_thm.2.2.2 "angle 53 54 54 69.20 114.00 118.00" ["vdw 26 3.8000 0.1010"]
      (by decide) (by decide) (by decide) (by decide) (by decide) (by decide)
      (by decide)⟩
